import Mathlib

/-!
Verification of the kia-server multi-provider LLM routing layer.

This file shallow-embeds the routing core of the repository:
  * `src/justus/llmRouter.service.ts`   (`Justus` namespace)
  * `src/kiaspora/translationRouter.service.ts` (`Kiaspora` namespace,
    shipped inside `kiaspora.module.ts`)
  * `src/kiaspora/translationChat.service.ts` (`TChat` namespace)
  * `src/generate-review/generate-review.service.ts` (`GenReview` namespace)

JSON values are modelled by the inductive `Json`.  External effects are
modelled by explicit oracles:
  * the outcome of one `fetch` call is a `FetchOutcome` value supplied as an
    argument (the adapters never issue more than one upstream call each);
  * `JSON.parse` is an argument `parse : String → Option Json`
    (`none` models a parse exception).
Environment variables are explicit structures of `Option String` fields
(`none` models an unset variable).

Request-body construction (model names, temperatures, token limits flowing
into the outbound HTTP payload) is not observable through the fetch oracle,
so numeric tuning options that only shape outbound requests are omitted;
everything that reaches a caller-visible result is modelled.
-/

/-- JSON values.  Numbers are modelled as rationals (every number produced by
`JSON.parse` is a finite double).  Objects are ordered association lists;
`JSON.parse` never yields duplicate keys, and lookup takes the first match. -/
inductive Json where
  | null
  | bool (b : Bool)
  | num (q : Rat)
  | str (s : String)
  | arr (xs : List Json)
  | obj (fields : List (String × Json))

/-- First-match lookup in an object field list. -/
def lookupField : List (String × Json) → String → Option Json
  | [], _ => none
  | (k₁, v) :: rest, k => if k₁ = k then some v else lookupField rest k

/-- Property access `j[k]`: a value on objects, `undefined` (`none`) elsewhere. -/
def Json.getField : Json → String → Option Json
  | .obj fs, k => lookupField fs k
  | _, _ => none

/-- JavaScript truthiness of a JSON value. -/
def Json.truthy : Json → Bool
  | .null => false
  | .bool b => b
  | .num q => q ≠ 0
  | .str s => s ≠ ""
  | .arr _ => true
  | .obj _ => true

/-- `typeof j === "object"` (arrays and `null` included). -/
def Json.typeofObject : Json → Bool
  | .obj _ => true
  | .arr _ => true
  | .null => true
  | _ => false

/-- Index `?.[0]`: first element of an array, key "0" of an object. -/
def Json.get0 : Json → Option Json
  | .arr xs => xs.head?
  | .obj fs => lookupField fs "0"
  | _ => none

/-- One step of an optional chain `x?.…`: `none` stands for `undefined`, and
access on `null`/`undefined` short-circuits to `undefined`. -/
def jsOptChain (j : Option Json) (step : Json → Option Json) : Option Json :=
  match j with
  | none => none
  | some .null => none
  | some v => step v

/-- `a ?? b` discriminator: `undefined` and `null` are nullish. -/
def jsNullish : Option Json → Bool
  | none => true
  | some .null => true
  | some _ => false

/-- `x ?? null` : a value, with `undefined`/`null` collapsed to `null`. -/
def jsGetOrNull (j : Json) (k : String) : Json :=
  match j.getField k with
  | some .null => Json.null
  | some v => v
  | none => Json.null

/-- Decimal digits to a natural number. -/
def natOfDigits (cs : List Char) : Nat :=
  cs.foldl (fun a c => a * 10 + (c.toNat - 48)) 0

/-- Rendering of a number, used by the model serializer and by `String(x)`.
Integral rationals print like JavaScript integers; non-integral ones use the
`Rat` representation (a model approximation of double formatting). -/
def jsonNumRepr (q : Rat) : String :=
  if q.den = 1 then toString q.num else toString q

/-- String escaping for the model `JSON.stringify` (covers the escapes that
can arise in this development). -/
def jsonEscapeChar (c : Char) : List Char :=
  if c = '"' then ['\\', '"']
  else if c = '\\' then ['\\', '\\']
  else if c = '\n' then ['\\', 'n']
  else if c = '\r' then ['\\', 'r']
  else if c = '\t' then ['\\', 't']
  else [c]

def jsonEscape (s : String) : String :=
  ⟨(s.data.map jsonEscapeChar).flatten⟩

mutual

/-- Model of `JSON.stringify`. -/
def Json.stringify : Json → String
  | .null => "null"
  | .bool true => "true"
  | .bool false => "false"
  | .num q => jsonNumRepr q
  | .str s => "\"" ++ jsonEscape s ++ "\""
  | .arr xs => "[" ++ stringifyList xs ++ "]"
  | .obj fs => "\x7b" ++ stringifyFields fs ++ "\x7d"

def stringifyList : List Json → String
  | [] => ""
  | [x] => Json.stringify x
  | x :: xs => Json.stringify x ++ "," ++ stringifyList xs

def stringifyFields : List (String × Json) → String
  | [] => ""
  | [(k, v)] => "\"" ++ jsonEscape k ++ "\":" ++ Json.stringify v
  | (k, v) :: fs => "\"" ++ jsonEscape k ++ "\":" ++ Json.stringify v ++ "," ++ stringifyFields fs

end

mutual

/-- Model of the `String(x)` coercion. -/
def jsToString : Json → String
  | .null => "null"
  | .bool true => "true"
  | .bool false => "false"
  | .num q => jsonNumRepr q
  | .str s => s
  | .arr xs => jsToStringList xs
  | .obj _ => "[object Object]"

def jsToStringList : List Json → String
  | [] => ""
  | [x] => jsToString x
  | x :: xs => jsToString x ++ "," ++ jsToStringList xs

end

/-- `process.env.X` with `none` for an unset variable; `undefined ?? ""`. -/
def envStr (v : Option String) : String := v.getD ""

/-- JavaScript truthiness of an environment value (`!v` negated). -/
def envTruthy (v : Option String) : Bool := envStr v ≠ ""


/-! Character-list re-implementations of the string primitives the sources
use.  Core `String.trim`, `toLower`, `take`, `drop`, `startsWith`,
`endsWith` walk byte positions by well-founded recursion, which the kernel
cannot evaluate; these structural versions have the same meaning on the
strings of this development and reduce definitionally. -/

/-- `s.trim()` (both-ends whitespace strip). -/
def jsTrim (s : String) : String :=
  ⟨((s.data.dropWhile Char.isWhitespace).reverse.dropWhile Char.isWhitespace).reverse⟩

/-- `s.toLowerCase()`. -/
def jsToLower (s : String) : String :=
  ⟨s.data.map Char.toLower⟩

/-- `s.startsWith(pre)`. -/
def jsStartsWith (s pre : String) : Bool :=
  pre.data.isPrefixOf s.data

/-- `s.endsWith(suf)`. -/
def jsEndsWith (s suf : String) : Bool :=
  suf.data.isSuffixOf s.data

/-- Drop the first `n` characters. -/
def jsDropChars (s : String) (n : Nat) : String :=
  ⟨s.data.drop n⟩

/-- Drop the last `n` characters. -/
def jsDropRightChars (s : String) (n : Nat) : String :=
  ⟨s.data.take (s.data.length - n)⟩

/-- Take the first `n` characters (`slice(0, n)`). -/
def jsTakeChars (s : String) (n : Nat) : String :=
  ⟨s.data.take n⟩

/-- `parts.join(sep)`. -/
def joinSep (sep : String) : List String → String
  | [] => ""
  | [x] => x
  | x :: xs => x ++ sep ++ joinSep sep xs


namespace Justus

/-! ## `src/justus/llmRouter.service.ts` -/

/-- The two chat providers of the LLM router. -/
inductive LlmProvider where
  | deepseek
  | openai
deriving DecidableEq, Repr

def LlmProvider.name : LlmProvider → String
  | .deepseek => "deepseek"
  | .openai => "openai"

/-- `HttpError` of `llmRouter.service.ts` (statusCode, message, details). -/
structure HttpError where
  statusCode : Nat
  message : String
  details : Option Json := none

/-- A thrown JavaScript value escaping an adapter: either the service's own
`HttpError`, or a foreign error (name, message, stack) such as a `fetch`
`TypeError`, which the outer catch handles generically. -/
inductive Thrown where
  | http (e : HttpError)
  | js (name message stack : Option String)

/-- Outcome of the single upstream `fetch` of one adapter call:
a settled response (with the raw body text), an `AbortError` from the
timeout controller, or a foreign thrown error. -/
inductive FetchOutcome where
  | resp (ok : Bool) (status : Nat) (xRequestId : Option String) (text : String)
  | abort
  | thrown (name message stack : Option String)

/-- The environment variables the router reads.  `DEEPSEEK_TEMPERATURE`,
`DEEPSEEK_MAX_TOKENS`, `OPENAI_TEMPERATURE` and `OPENAI_MAX_OUTPUT_TOKENS`
only shape the outbound request body, which the fetch oracle abstracts,
and are omitted. -/
structure LlmEnv where
  DEEPSEEK_API_KEY : Option String := none
  DEEPSEEK_URL : Option String := none
  DEEPSEEK_PROMPT_MODEL : Option String := none
  OPENAI_KIA_API_KEY : Option String := none
  OPENAI_PROMPT_MODEL : Option String := none

/-- Per-block collection inside the structured `output` array
(`extractTextFromProviderBody`, inner loop): text from `text`
(string or `{value}` object) and from `content` (string or `{value}` object),
in that order. -/
def blockParts (block : Json) : List String :=
  if block.truthy = false then []
  else
    let t := block.getField "text"
    let p1 : List String :=
      match t with
      | some (.str s) => [s]
      | _ => []
    let p2 : List String :=
      match t with
      | some tv =>
        if tv.truthy then
          match tv.getField "value" with
          | some (.str v) => [v]
          | _ => []
        else []
      | none => []
    let c := block.getField "content"
    let p3 : List String :=
      match c with
      | some (.str s) => [s]
      | _ => []
    let p4 : List String :=
      match c with
      | some cv =>
        if cv.truthy then
          match cv.getField "value" with
          | some (.str v) => [v]
          | _ => []
        else []
      | none => []
    p1 ++ p2 ++ p3 ++ p4

/-- `LlmRouterService.extractTextFromProviderBody`, translated with the
source's sequential early returns. -/
def extractTextFromProviderBody (body : Json) : Option String :=
  if body.truthy = false then none
  else
    let step1 : Option String :=
      match body.getField "output_text" with
      | some (.str s) => if jsTrim s = "" then none else some (jsTrim s)
      | _ => none
    match step1 with
    | some s => some s
    | none =>
      let step2 : Option String :=
        match body.getField "output" with
        | some (.arr (first :: _)) =>
          match jsOptChain (some first) (fun j => j.getField "content") with
          | some (.arr blocks) =>
            let joined := jsTrim (String.join (blocks.map blockParts).flatten)
            if joined = "" then none else some joined
          | _ => none
        | _ => none
      match step2 with
      | some s => some s
      | none =>
        let step3 : Option String :=
          match
            jsOptChain
              (jsOptChain (jsOptChain (jsOptChain (some body) (fun j => j.getField "choices"))
                Json.get0) (fun j => j.getField "message"))
              (fun j => j.getField "content")
          with
          | some (.str s) => if jsTrim s = "" then none else some (jsTrim s)
          | _ => none
        match step3 with
        | some s => some s
        | none =>
          let fb : Option Json :=
            if jsNullish (body.getField "text") = false then body.getField "text"
            else if jsNullish (body.getField "output") = false then body.getField "output"
            else if jsNullish (body.getField "result") = false then body.getField "result"
            else if jsNullish (body.getField "response") = false then body.getField "response"
            else none
          match fb with
          | some (.str s) => if jsTrim s = "" then none else some (jsTrim s)
          | _ => none

/-! Spec-side description of the normalizer (§4.2 and §9 of the spec): an
ordered list of pure rules tried in sequence, first match wins. -/

/-- Spec rule 1: a top-level plain output-text field, if non-blank. -/
def rule1 (body : Json) : Option String :=
  match body.getField "output_text" with
  | some (.str s) => if jsTrim s = "" then none else some (jsTrim s)
  | _ => none

/-- Text of one item of the structured `output` array. -/
def itemText (item : Json) : String :=
  match jsOptChain (some item) (fun j => j.getField "content") with
  | some (.arr blocks) => String.join (blocks.map blockParts).flatten
  | _ => ""

/-- Spec rule 2 as the source implements it: content blocks of the FIRST
item of the `output` array only. -/
def rule2First (body : Json) : Option String :=
  match body.getField "output" with
  | some (.arr (first :: _)) =>
    match jsOptChain (some first) (fun j => j.getField "content") with
    | some (.arr blocks) =>
      let joined := jsTrim (String.join (blocks.map blockParts).flatten)
      if joined = "" then none else some joined
    | _ => none
  | _ => none

/-- Spec rule 2 as claim C6 words it: collect across EVERY item of the
`output` array, concatenated in document order, trimmed. -/
def rule2AllItems (body : Json) : Option String :=
  match body.getField "output" with
  | some (.arr items) =>
    match items with
    | [] => none
    | _ :: _ =>
      let joined := jsTrim (String.join (items.map itemText))
      if joined = "" then none else some joined
  | _ => none

/-- Spec rule 3: chat-completion-style `choices[0].message.content`. -/
def rule3 (body : Json) : Option String :=
  match
    jsOptChain
      (jsOptChain (jsOptChain (jsOptChain (some body) (fun j => j.getField "choices"))
        Json.get0) (fun j => j.getField "message"))
      (fun j => j.getField "content")
  with
  | some (.str s) => if jsTrim s = "" then none else some (jsTrim s)
  | _ => none

/-- Spec rule 4: generic fallback fields `text`, `output`, `result`,
`response` in that priority order (the source's `??` chain). -/
def rule4 (body : Json) : Option String :=
  let fb : Option Json :=
    if jsNullish (body.getField "text") = false then body.getField "text"
    else if jsNullish (body.getField "output") = false then body.getField "output"
    else if jsNullish (body.getField "result") = false then body.getField "result"
    else if jsNullish (body.getField "response") = false then body.getField "response"
    else none
  match fb with
  | some (.str s) => if jsTrim s = "" then none else some (jsTrim s)
  | _ => none

/-- Ordered-rule combinator of spec §9: try rules in sequence, first match
wins. -/
def firstSome (rules : List (Json → Option String)) (b : Json) : Option String :=
  match rules with
  | [] => none
  | r :: rest =>
    match r b with
    | some s => some s
    | none => firstSome rest b

/-- The normalizer as claim C6 words it (rule 2 walks every output item). -/
def extractClaimed (body : Json) : Option String :=
  if body.truthy = false then none
  else firstSome [rule1, rule2AllItems, rule3, rule4] body

/-- The normalizer as an ordered rule pipeline with the source's rule 2
(first output item only). -/
def extractOrdered (body : Json) : Option String :=
  if body.truthy = false then none
  else firstSome [rule1, rule2First, rule3, rule4] body

end Justus

namespace Justus

/-- `getDeepseekConfig`: key and base URL are required (fail-fast 500),
the model falls back to "deepseek-chat" when the variable is nullish. -/
structure DeepseekConfig where
  key : String
  baseUrl : String
  model : String

def getDeepseekConfig (env : LlmEnv) : Except HttpError DeepseekConfig :=
  let key := envStr env.DEEPSEEK_API_KEY
  let baseUrl := envStr env.DEEPSEEK_URL
  let model := env.DEEPSEEK_PROMPT_MODEL.getD "deepseek-chat"
  if key = "" then .error ⟨500, "DEEPSEEK_API_KEY missing", none⟩
  else if baseUrl = "" then .error ⟨500, "DEEPSEEK_URL missing", none⟩
  else .ok ⟨key, baseUrl, model⟩

/-- `getOpenAiConfig`: fixed base URL, required key, defaulted model. -/
structure OpenAiConfig where
  key : String
  baseUrl : String
  model : String

def getOpenAiConfig (env : LlmEnv) : Except HttpError OpenAiConfig :=
  let key := envStr env.OPENAI_KIA_API_KEY
  let baseUrl := "https://api.openai.com/v1/responses"
  let model := env.OPENAI_PROMPT_MODEL.getD "gpt-4.1-mini"
  if key = "" then .error ⟨500, "OPENAI_KIA_API_KEY missing", none⟩
  else .ok ⟨key, baseUrl, model⟩

/-- `raw_provider_meta` of a `ProviderResult`. -/
structure RawMeta where
  status : Nat
  xRequestId : Option String
  body : Json

/-- Normalized success result of one adapter call. -/
structure ProviderResult where
  provider : LlmProvider
  model : String
  trace_id : String
  output_text : String
  raw_provider_meta : RawMeta

/-- `normalizeProviderResponse`: extract text or throw a 502 naming the
provider; never lets a blank success through. -/
def normalizeProviderResponse (provider : LlmProvider) (status : Nat)
    (xRequestId : Option String) (body : Json) : Except HttpError (String × RawMeta) :=
  match extractTextFromProviderBody body with
  | none =>
    .error ⟨502, "Provider " ++ provider.name ++ " returned no recognizable text field", none⟩
  | some t =>
    if t = "" then
      .error ⟨502, "Provider " ++ provider.name ++ " returned no recognizable text field", none⟩
    else .ok (t, ⟨status, xRequestId, body⟩)

/-- The validated request (`NormalizedRequest` in the source). -/
structure NormalizedRequest where
  provider : Option LlmProvider
  input : String
  system : Option String
  metadata : Option Json

/-- `callDeepseek`: config check, fetch under a 10s timeout, safe JSON read,
non-2xx to a 502 `HttpError` carrying `{ body: json ?? text }`, then
normalization. -/
def callDeepseek (env : LlmEnv) (parse : String → Option Json) (f : FetchOutcome)
    (req : NormalizedRequest) (traceId : String) : Except Thrown ProviderResult :=
  match getDeepseekConfig env with
  | .error e => .error (.http e)
  | .ok config =>
    match f with
    | .abort => .error (.http ⟨504, "Provider request timed out after 10000ms", none⟩)
    | .thrown n m s => .error (.js n m s)
    | .resp ok status xrid text =>
      let json : Option Json := if text = "" then none else parse text
      if ok = false then
        .error (.http ⟨502, "DeepSeek HTTP " ++ toString status,
          some (.obj [("body", json.getD (.str text))])⟩)
      else
        match normalizeProviderResponse .deepseek status xrid (json.getD (.obj [])) with
        | .error e => .error (.http e)
        | .ok (t, meta) => .ok ⟨.deepseek, config.model, traceId, t, meta⟩

/-- `callOpenAi`: same shape with the OpenAI config and a 25s timeout. -/
def callOpenAi (env : LlmEnv) (parse : String → Option Json) (f : FetchOutcome)
    (req : NormalizedRequest) (traceId : String) : Except Thrown ProviderResult :=
  match getOpenAiConfig env with
  | .error e => .error (.http e)
  | .ok config =>
    match f with
    | .abort => .error (.http ⟨504, "Provider request timed out after 25000ms", none⟩)
    | .thrown n m s => .error (.js n m s)
    | .resp ok status xrid text =>
      let json : Option Json := if text = "" then none else parse text
      if ok = false then
        .error (.http ⟨502, "OpenAI HTTP " ++ toString status,
          some (.obj [("body", json.getD (.str text))])⟩)
      else
        match normalizeProviderResponse .openai status xrid (json.getD (.obj [])) with
        | .error e => .error (.http e)
        | .ok (t, meta) => .ok ⟨.openai, config.model, traceId, t, meta⟩

/-- The raw (already JSON-parsed) request payload; `none` is an absent key. -/
structure RouterPayload where
  provider : Option Json := none
  input : Option Json := none
  system : Option Json := none
  metadata : Option Json := none

/-- `validateRequestPayload`: input must be a truthy string; `system` a
string when non-nullish; `metadata` an object when non-nullish; `provider` a
case-insensitive member of the enum when non-nullish. -/
def validateRequestPayload (p : RouterPayload) : Except HttpError NormalizedRequest :=
  let inputBad : Bool :=
    (match p.input with
     | none => true
     | some j => !j.truthy)
    || (match p.input with
        | some (.str _) => false
        | _ => true)
  if inputBad then .error ⟨400, "input is required and must be a string", none⟩
  else
    let systemBad :=
      match p.system with
      | none => false
      | some .null => false
      | some (.str _) => false
      | some _ => true
    if systemBad then .error ⟨400, "system must be a string when provided", none⟩
    else
      let metadataBad :=
        match p.metadata with
        | none => false
        | some .null => false
        | some (.obj _) => false
        | some (.arr _) => false
        | some _ => true
      if metadataBad then .error ⟨400, "metadata must be an object when provided", none⟩
      else
        let inputStr := match p.input with
          | some (.str s) => s
          | _ => ""
        let systemVal : Option String := match p.system with
          | some (.str s) => some s
          | _ => none
        let metadataVal : Option Json := match p.metadata with
          | some .null => none
          | some j => some j
          | none => none
        match p.provider with
        | none => .ok ⟨none, inputStr, systemVal, metadataVal⟩
        | some .null => .ok ⟨none, inputStr, systemVal, metadataVal⟩
        | some (.str s) =>
          let lower := jsToLower s
          if lower = "deepseek" then .ok ⟨some .deepseek, inputStr, systemVal, metadataVal⟩
          else if lower = "openai" then .ok ⟨some .openai, inputStr, systemVal, metadataVal⟩
          else .error ⟨400, "provider must be \"deepseek\" or \"openai\"", none⟩
        | some _ => .error ⟨400, "provider must be a string when provided", none⟩

/-- Failure envelope body (`RouteFailure.body`). -/
structure FailureBody where
  errors : List String
  trace_id : String
  details : Option Json

/-- Body of a route response: a provider result on 200, an error envelope
otherwise. -/
inductive RouteBody where
  | success (r : ProviderResult)
  | failure (f : FailureBody)

/-- `LlmRouterResult` as seen by the HTTP layer. -/
structure RouteResponse where
  statusCode : Nat
  body : RouteBody

def optionStrJson : Option String → Json
  | some s => .str s
  | none => .null

/-- The outer catch of `route` (lines 85-111): an `HttpError` keeps its own
status/message/details; anything else becomes a 500 whose details carry the
foreign error's name and stack. -/
def failureOfThrown (t : Thrown) (traceId : String) : RouteResponse :=
  match t with
  | .http e => ⟨e.statusCode, .failure ⟨[e.message], traceId, e.details⟩⟩
  | .js n m s =>
    ⟨500, .failure
      ⟨"Internal server error" ::
        (match m with
         | some msg => if msg = "" then [] else [msg]
         | none => []),
       traceId,
       some (.obj [("name", optionStrJson n), ("stack", optionStrJson s)])⟩⟩

/-- `LlmRouterService.route`, instrumented with the ordered list of adapters
invoked.  `fD`/`fO` are the fetch outcomes a DeepSeek/OpenAI attempt would
observe. -/
def route (env : LlmEnv) (parse : String → Option Json) (fD fO : FetchOutcome)
    (payload : RouterPayload) (traceId : String) : RouteResponse × List LlmProvider :=
  match validateRequestPayload payload with
  | .error e => (⟨e.statusCode, .failure ⟨[e.message], traceId, e.details⟩⟩, [])
  | .ok req =>
    match req.provider with
    | some .deepseek =>
      (match callDeepseek env parse fD req traceId with
       | .ok r => ⟨200, .success r⟩
       | .error t => failureOfThrown t traceId,
       [.deepseek])
    | some .openai =>
      (match callOpenAi env parse fO req traceId with
       | .ok r => ⟨200, .success r⟩
       | .error t => failureOfThrown t traceId,
       [.openai])
    | none =>
      match callDeepseek env parse fD req traceId with
      | .ok r => (⟨200, .success r⟩, [.deepseek])
      | .error _ =>
        match callOpenAi env parse fO req traceId with
        | .ok r => (⟨200, .success r⟩, [.deepseek, .openai])
        | .error t => (failureOfThrown t traceId, [.deepseek, .openai])

end Justus

namespace Kiaspora

/-! ## `TranslationRouterService` (`src/kiaspora/kiaspora.module.ts`) -/

/-- The three translation providers. -/
inductive TProvider where
  | deepseek
  | groq
  | openai
deriving DecidableEq, Repr

/-- `HttpError` of the translation router (status, message, code, details). -/
structure THttpError where
  status : Nat
  message : String
  code : Option String := none
  details : Option Json := none

/-- A value thrown out of one adapter: the service's `HttpError`, or a
foreign error. `js` carries `String(err?.message ?? err)` precomputed. -/
inductive TThrown where
  | http (e : THttpError)
  | js (message : String)

/-- `String(err?.message ?? err)` used by the catch blocks of `handle`. -/
def TThrown.msgString : TThrown → String
  | .http e => e.message
  | .js m => m

/-- Outcome of one translation-provider `fetch` (no timeout wrapper exists
in this service).  `latency` stands in for the measured `Date.now()` delta. -/
inductive TFetchOutcome where
  | thrown (message : String)
  | resp (ok : Bool) (status : Nat) (statusText : String) (rawText : String) (latency : Nat)

/-- Environment read by the translation router. -/
structure TransEnv where
  OPENAI_KIA_API_KEY : Option String := none
  OPENAI_API_KEY : Option String := none
  OPENAI_KIASPORA_API_KEY : Option String := none
  OPENAI_TRANSLATION_MODEL : Option String := none
  DEEPSEEK_API_KEY : Option String := none
  DEEPSEEK_TRANSLATION_MODEL : Option String := none
  GROQ_KIA_API_KEY : Option String := none
  GROQ_API_KEY : Option String := none
  GROQ_TRANSLATION_MODEL : Option String := none

/-- `pickFirstEnv`: first env value that is a non-blank string, trimmed;
otherwise the empty string. -/
def pickFirstEnv (vals : List (Option String)) : String :=
  match vals with
  | [] => ""
  | v :: rest =>
    match v with
    | some s => if jsTrim s ≠ "" then jsTrim s else pickFirstEnv rest
    | none => pickFirstEnv rest

/-- `isNonEmptyString` on a possibly-absent JSON value. -/
def jsNonEmptyString : Option Json → Option String
  | some (.str s) => if jsTrim s = "" then none else some s
  | _ => none

/-- The fence-stripping prefix/suffix replaces of
`toCanonicalTranslationJsonString`:
`trim`, then drop a leading ``` (optionally followed by `json`,
case-insensitively), then drop a trailing ```, then `trim`. -/
def stripFences (raw : String) : String :=
  let s0 := jsTrim raw
  let s1 :=
    if jsToLower (jsTakeChars s0 7) = "```json" then jsDropChars s0 7
    else if jsStartsWith s0 "```" then jsDropChars s0 3
    else s0
  let s2 := if jsEndsWith s1 "```" then jsDropRightChars s1 3 else s1
  jsTrim s2

/-- Field update used when a required key is nullish: JavaScript assignment
keeps an existing binding's position and appends a new key at the end. -/
def setField : List (String × Json) → String → Json → List (String × Json)
  | [], k, v => [(k, v)]
  | (k₁, v₁) :: rest, k, v =>
    if k₁ = k then (k, v) :: rest else (k₁, v₁) :: setField rest k v

/-- `if (out[k] == null) out[k] = v` on an object's field list. -/
def ensureField (fs : List (String × Json)) (k : String) (v : Json) : List (String × Json) :=
  match lookupField fs k with
  | none => fs ++ [(k, v)]
  | some .null => setField fs k v
  | some _ => fs

/-- Object spread `{...j}`: fields of an object, index-keyed fields of an
array (the `typeof === "object"` guard lets arrays through). -/
def jsSpreadFields : Json → List (String × Json)
  | .obj fs => fs
  | .arr xs => (xs.enum.map fun p => (toString p.fst, p.snd))
  | _ => []

/-- The best-effort wrapper of `toCanonicalTranslationJsonString` for
non-JSON model output. -/
def translationWrapper (stripped sourceText : String) : Json :=
  .obj [("sourceText", .str sourceText), ("translatedText", .str stripped),
        ("sourcePronunciation", .str "")]

/-- The canonical translation object before `JSON.stringify`: parseable
JSON that is `typeof "object"` and truthy keeps its keys with the three
required ones filled in; everything else is wrapped. -/
def toCanonicalTranslationObj (parse : String → Option Json) (raw sourceText : String) : Json :=
  let stripped := stripFences raw
  match parse stripped with
  | some j =>
    if j.truthy && j.typeofObject then
      let fs := jsSpreadFields j
      let fs := ensureField fs "sourceText" (.str sourceText)
      let fs := ensureField fs "translatedText" (.str "")
      let fs := ensureField fs "sourcePronunciation" (.str "")
      .obj fs
    else translationWrapper stripped sourceText
  | none => translationWrapper stripped sourceText

/-- `toCanonicalTranslationJsonString`. -/
def toCanonicalTranslationJsonString (parse : String → Option Json)
    (raw sourceText : String) : String :=
  Json.stringify (toCanonicalTranslationObj parse raw sourceText)

/-- Validated request fields forwarded to the adapters. -/
structure TransPayload where
  sourceText : String
  sourceLang : String
  targetLang : String
  context : Option String
  customPrompt : Option String

/-- Success result (`ProviderResult200`). -/
structure ProviderResult200 where
  translation : String
  detected_source_lang : String
  provider : TProvider
  latency_ms : Nat
  raw_provider_meta : Json

/-- `parsed?.choices?.[0]?.message?.content ?? ""` of the chat-completions
response shape. -/
def chatCompletionContent (parsed : Json) : Json :=
  match
    jsOptChain
      (jsOptChain (jsOptChain (jsOptChain (some parsed) (fun j => j.getField "choices"))
        Json.get0) (fun j => j.getField "message"))
      (fun j => j.getField "content")
  with
  | some .null => .str ""
  | some v => v
  | none => .str ""

/-- `{ model, usage: parsed?.usage ?? null, id: parsed?.id ?? null }`. -/
def transMeta (model : String) (parsed : Json) : Json :=
  .obj [("model", .str model), ("usage", jsGetOrNull parsed "usage"),
        ("id", jsGetOrNull parsed "id")]

/-- Shared tail of the three translation adapters after the key/model
lookup: fetch, tolerant JSON read, non-2xx to a 502 `HttpError`, then the
canonical translation string. -/
def callTail (parse : String → Option Json) (f : TFetchOutcome) (payload : TransPayload)
    (provider : TProvider) (providerLabel : String) (httpCode : String) (model : String) :
    Except TThrown ProviderResult200 :=
  match f with
  | .thrown m => .error (.js m)
  | .resp ok status statusText rawText latency =>
    let parsed : Json := if rawText = "" then .obj [] else (parse rawText).getD (.obj [])
    if ok = false then
      .error (.http ⟨502, jsTrim (providerLabel ++ " HTTP " ++ toString status ++ " " ++ statusText),
        some httpCode,
        some (.obj [("status", .num (status : Rat)), ("bodySnippet", .str (jsTakeChars rawText 800))])⟩)
    else
      let content := chatCompletionContent parsed
      let translation := toCanonicalTranslationJsonString parse (jsToString content) payload.sourceText
      .ok ⟨translation,
           (if payload.sourceLang = "" then "auto" else payload.sourceLang),
           provider, latency, transMeta model parsed⟩

/-- `TranslationRouterService.callDeepSeek`. -/
def callDeepSeek (env : TransEnv) (parse : String → Option Json) (f : TFetchOutcome)
    (payload : TransPayload) (traceId : String) : Except TThrown ProviderResult200 :=
  let apiKey := pickFirstEnv [env.DEEPSEEK_API_KEY, env.DEEPSEEK_API_KEY]
  if apiKey = "" then
    .error (.http ⟨500, "Missing DEEPSEEK_API_KEY", some "MISSING_DEEPSEEK_API_KEY", none⟩)
  else
    let model :=
      let m := pickFirstEnv [env.DEEPSEEK_TRANSLATION_MODEL]
      if m = "" then "deepseek-chat" else m
    callTail parse f payload .deepseek "DeepSeek" "DEEPSEEK_HTTP_ERROR" model

/-- `TranslationRouterService.callGroq`. -/
def callGroq (env : TransEnv) (parse : String → Option Json) (f : TFetchOutcome)
    (payload : TransPayload) (traceId : String) : Except TThrown ProviderResult200 :=
  let apiKey := pickFirstEnv [env.GROQ_KIA_API_KEY, env.GROQ_API_KEY]
  if apiKey = "" then
    .error (.http ⟨500, "Missing GROQ_KIA_API_KEY", some "MISSING_GROQ_KIA_API_KEY", none⟩)
  else
    let model :=
      let m := pickFirstEnv [env.GROQ_TRANSLATION_MODEL]
      if m = "" then "llama-3.1-8b-instant" else m
    callTail parse f payload .groq "Groq" "GROQ_HTTP_ERROR" model

/-- `TranslationRouterService.callOpenAI`. -/
def callOpenAI (env : TransEnv) (parse : String → Option Json) (f : TFetchOutcome)
    (payload : TransPayload) (traceId : String) : Except TThrown ProviderResult200 :=
  let apiKey := pickFirstEnv
    [env.OPENAI_KIA_API_KEY, env.OPENAI_API_KEY, env.OPENAI_KIASPORA_API_KEY]
  if apiKey = "" then
    .error (.http ⟨500, "Missing OPENAI_KIA_API_KEY", some "MISSING_OPENAI_KIA_API_KEY", none⟩)
  else
    let model :=
      let m := pickFirstEnv [env.OPENAI_TRANSLATION_MODEL]
      if m = "" then "gpt-4o-mini" else m
    callTail parse f payload .openai "OpenAI" "OPENAI_HTTP_ERROR" model

/-- `getBodyField`: camelCase first, then snake_case, `undefined` only when
both keys are absent. -/
def getBodyField (body : Json) (camel snake : String) : Option Json :=
  if body.truthy = false then none
  else
    match body.getField camel with
    | some v => some v
    | none => body.getField snake

/-- `normalizeProvider`. -/
def normalizeProvider (raw : Option Json) : Except THttpError (Option TProvider) :=
  match raw with
  | none => .ok none
  | some .null => .ok none
  | some (.str s) =>
    let lower := jsTrim (jsToLower s)
    if lower = "deepseek" then .ok (some .deepseek)
    else if lower = "groq" then .ok (some .groq)
    else if lower = "openai" then .ok (some .openai)
    else .error ⟨400, "provider must be \"deepseek\", \"groq\", or \"openai\" when provided",
      some "INVALID_PROVIDER", none⟩
  | some _ =>
    .error ⟨400, "provider must be a string when provided", some "INVALID_PROVIDER", none⟩

/-- `mergeContext`: trimmed context, then `userMessage: ...`, joined by a
blank line; `none` when blank. -/
def mergeContext (rawContext rawUserMessage : Option Json) : Option String :=
  let parts :=
    (match rawContext with
     | some (.str s) => if jsTrim s ≠ "" then [jsTrim s] else []
     | _ => []) ++
    (match rawUserMessage with
     | some (.str s) => if jsTrim s ≠ "" then ["userMessage: " ++ jsTrim s] else []
     | _ => [])
  let merged := joinSep "\n\n" parts
  if jsTrim merged ≠ "" then some merged else none

/-- The validated request (`NormalizedRequest` of the translation router). -/
structure TNormalized where
  provider : Option TProvider
  sourceText : String
  sourceLang : String
  targetLang : String
  context : Option String
  customPrompt : Option String

/-- `TranslationRouterService.validate`. -/
def validate (body : Json) : Except THttpError TNormalized :=
  let providerRaw := getBodyField body "provider" "provider"
  let sourceText := getBodyField body "sourceText" "source_text"
  let targetLang := getBodyField body "targetLang" "target_lang"
  let sourceLang := getBodyField body "sourceLang" "source_lang"
  let context := getBodyField body "context" "context"
  let userMessage := getBodyField body "userMessage" "user_message"
  let customPrompt := getBodyField body "customPrompt" "custom_prompt"
  match jsNonEmptyString sourceText with
  | none =>
    .error ⟨400, "Missing required field: sourceText/source_text", some "MISSING_SOURCE_TEXT", none⟩
  | some st =>
    match jsNonEmptyString targetLang with
    | none =>
      .error ⟨400, "Missing required field: targetLang/target_lang", some "MISSING_TARGET_LANG", none⟩
    | some tl =>
      match normalizeProvider providerRaw with
      | .error e => .error e
      | .ok p =>
        .ok ⟨p, jsTrim st,
             (match jsNonEmptyString sourceLang with
              | some sl => jsTrim sl
              | none => "auto"),
             jsTrim tl,
             mergeContext context userMessage,
             (match jsNonEmptyString customPrompt with
              | some cp => some (jsTrim cp)
              | none => none)⟩

/-- The payload `handle` forwards to every adapter. -/
def payloadOf (v : TNormalized) : TransPayload :=
  ⟨v.sourceText, v.sourceLang, v.targetLang, v.context, v.customPrompt⟩

/-- The forced-provider catch blocks: any failure becomes one 502 naming
the forced provider. -/
def forcedWrap (label code : String) (err : TThrown) : THttpError :=
  ⟨502, label ++ " translation is currently unavailable; please try again later",
   some code, some (.obj [("message", .str err.msgString)])⟩

/-- `TranslationRouterService.handle`, instrumented with the ordered list of
adapters invoked. -/
def handle (env : TransEnv) (parse : String → Option Json) (fD fG fO : TFetchOutcome)
    (body : Json) (traceId : String) :
    Except THttpError ProviderResult200 × List TProvider :=
  match validate body with
  | .error e => (.error e, [])
  | .ok v =>
    let payload := payloadOf v
    match v.provider with
    | some .deepseek =>
      (match callDeepSeek env parse fD payload traceId with
       | .ok r => .ok r
       | .error err => .error (forcedWrap "DeepSeek" "DEEPSEEK_UNAVAILABLE" err),
       [.deepseek])
    | some .groq =>
      (match callGroq env parse fG payload traceId with
       | .ok r => .ok r
       | .error err => .error (forcedWrap "Groq" "GROQ_UNAVAILABLE" err),
       [.groq])
    | some .openai =>
      (match callOpenAI env parse fO payload traceId with
       | .ok r => .ok r
       | .error err => .error (forcedWrap "OpenAI" "OPENAI_UNAVAILABLE" err),
       [.openai])
    | none =>
      match callDeepSeek env parse fD payload traceId with
      | .ok r => (.ok r, [.deepseek])
      | .error _ =>
        match callGroq env parse fG payload traceId with
        | .ok r => (.ok r, [.deepseek, .groq])
        | .error _ =>
          match callOpenAI env parse fO payload traceId with
          | .ok r => (.ok r, [.deepseek, .groq, .openai])
          | .error err =>
            (.error ⟨502, "Translation providers are currently unavailable; please try again later",
              some "PROVIDERS_UNAVAILABLE", some (.obj [("message", .str err.msgString)])⟩,
             [.deepseek, .groq, .openai])

end Kiaspora

namespace TChat

/-! ## `TranslationChatService` (`src/kiaspora/translationChat.service.ts`) -/

/-- Chat providers of the translation chat service. -/
inductive ChatProvider where
  | deepseek
  | openai
  | groq
deriving DecidableEq, Repr

/-- `HttpError` of the chat service. -/
structure CHttpError where
  statusCode : Nat
  message : String

/-- A thrown value: the service's `HttpError` or a plain `Error` (upstream
failures are thrown as `new Error(...)` here, not as `HttpError`). -/
inductive CThrown where
  | http (e : CHttpError)
  | err (message : String)

/-- Environment read by the chat service. -/
structure ChatEnv where
  GROQ_API_KEY : Option String := none
  OPENAI_KIA_API_KEY : Option String := none
  DEEPSEEK_API_KEY : Option String := none
  OPENAI_PROMPT_MODEL : Option String := none
  DEEPSEEK_PROMPT_MODEL : Option String := none
  GROQ_MODEL : Option String := none
  OPENAI_API_URL : Option String := none
  DEEPSEEK_URL : Option String := none

/-- Outcome of the provider `fetch` (`textBody` is what `res.text()` /
`res.json()` would read). -/
inductive CFetchOutcome where
  | thrown (message : String)
  | resp (ok : Bool) (status : Nat) (statusText : String) (textBody : String) (latency : Nat)

/-- `/^["']|["']$/g` of `requireEnv`: strip one leading and one trailing
quote character. -/
def stripOuterQuotes (s : String) : String :=
  let s1 := if jsStartsWith s "\"" || jsStartsWith s "\x27" then jsDropChars s 1 else s
  if jsEndsWith s1 "\"" || jsEndsWith s1 "\x27" then jsDropRightChars s1 1 else s1

/-- `requireEnv`: trimmed, unquoted, non-empty value or a 500. -/
def requireEnv (v : Option String) (name forMsg : String) : Except CThrown String :=
  let s := stripOuterQuotes (jsTrim (envStr v))
  if s = "" then
    .error (.http ⟨500, "Server misconfigured: missing " ++ name ++ " for " ++ forMsg⟩)
  else .ok s

/-- First stage of `buildAnswer`:
`body?.choices?.[0]?.message?.content?.trim?.() || body?.output_text || ""`. -/
def buildAnswerFirst (body : Json) : Json :=
  let viaOutputText : Json :=
    match jsOptChain (some body) (fun j => j.getField "output_text") with
    | some v => if v.truthy then v else .str ""
    | none => .str ""
  let contentTrimmed : Option String :=
    match
      jsOptChain
        (jsOptChain (jsOptChain (jsOptChain (some body) (fun j => j.getField "choices"))
          Json.get0) (fun j => j.getField "message"))
        (fun j => j.getField "content")
    with
    | some (.str s) => some (jsTrim s)
    | _ => none
  match contentTrimmed with
  | some s => if s = "" then viaOutputText else .str s
  | none => viaOutputText

/-- `item?.content || []` iterated by `for (const block of …)`.  JavaScript
iterates an array's elements and a string's characters; a falsy value is
replaced by `[]`.  (A truthy non-iterable would throw in JavaScript; such
bodies are not exercised here.) -/
def itemBlocks (item : Json) : List Json :=
  match jsOptChain (some item) (fun j => j.getField "content") with
  | some (.arr xs) => xs
  | some (.str s) => if s = "" then [] else s.data.map (fun c => .str (String.singleton c))
  | _ => []

/-- Per-block collection of `buildAnswer`: `text.value` first, else a plain
string `text` (note: unlike the llmRouter normalizer, `content` blocks and
later items ARE walked here but `content` string fields are not). -/
def chatBlockPart (block : Json) : List String :=
  match
    jsOptChain (jsOptChain (some block) (fun j => j.getField "text")) (fun j => j.getField "value")
  with
  | some (.str v) => [v]
  | _ =>
    match jsOptChain (some block) (fun j => j.getField "text") with
    | some (.str s) => [s]
    | _ => []

/-- `buildAnswer` of `translationChat.service.ts`. -/
def buildAnswer (body : Json) : Json :=
  let answer := buildAnswerFirst body
  let answer :=
    if answer.truthy = false then
      match jsOptChain (some body) (fun j => j.getField "output") with
      | some (.arr items) =>
        .str (jsTrim (String.join (items.map (fun item => String.join (itemBlocks item |>.map chatBlockPart).flatten))))
      | _ => answer
    else answer
  if answer.truthy then answer else .str ""

/-- Success shape of `callProvider`: note `reply` may be an arbitrary JSON
value when `output_text` is a truthy non-string. -/
structure ChatReply where
  reply : Json
  traceId : String
  aiProvider : String
  latency_ms : Nat

/-- The joined-messages adaptation of the Groq branch. -/
def joinedMessages (messages : List Json) : String :=
  joinSep "\n\n"
    ((messages.map fun m =>
      let role :=
        match jsOptChain (some m) (fun j => j.getField "role") with
        | some (.str r) => r
        | _ => "user"
      let content :=
        match jsOptChain (some m) (fun j => j.getField "content") with
        | some (.str c) => c
        | _ =>
          match
            jsOptChain (jsOptChain (some m) (fun j => j.getField "content"))
              (fun j => j.getField "text")
          with
          | some (.str c) => c
          | _ => ""
      if content = "" then "" else role ++ ": " ++ content).filter (fun s => s ≠ ""))

/-- `TranslationChatService.callProvider`.  The request payload (messages,
system prompt) only shapes the outbound body, which the fetch oracle
abstracts; `messages`/`customPrompt` are kept as arguments for fidelity. -/
def callProvider (env : ChatEnv) (parse : String → Option Json) (f : CFetchOutcome)
    (aiProvider : ChatProvider) (messages : List Json) (customPrompt : String)
    (traceId : String) : Except CThrown ChatReply :=
  match aiProvider with
  | .groq =>
    match requireEnv env.GROQ_API_KEY "GROQ_API_KEY" "groq provider" with
    | .error e => .error e
    | .ok _groqKey =>
      match f with
      | .thrown m => .error (.err m)
      | .resp ok status statusText textBody latency =>
        if ok = false then
          .error (.err ("Upstream groq error: HTTP " ++ toString status ++ " " ++ statusText
            ++ " " ++ textBody))
        else
          let json := (parse textBody).getD (.obj [])
          let answer := buildAnswer json
          .ok ⟨if answer.truthy then answer else .str "", traceId, "groq", latency⟩
  | .openai =>
    match requireEnv env.OPENAI_KIA_API_KEY "OPENAI_KIA_API_KEY" "openai provider" with
    | .error e => .error e
    | .ok _apiKey =>
      let m := envStr env.OPENAI_PROMPT_MODEL
      -- module constant OPENAI_MODEL = env value || "gpt-5-nano"
      let openAiDefaultModel := if m ≠ "" then m else "gpt-5-nano"
      let model := if m ≠ "" then m else openAiDefaultModel
      if model = "" then
        .error (.http ⟨500, "Server misconfigured: missing OPENAI_PROMPT_MODEL for openai provider"⟩)
      else
        match f with
        | .thrown m => .error (.err m)
        | .resp ok status statusText textBody latency =>
          if ok = false then
            .error (.err ("Upstream openai error: HTTP " ++ toString status ++ " " ++ statusText
              ++ " " ++ textBody))
          else
            let json := (parse textBody).getD (.obj [])
            let answer := buildAnswer json
            .ok ⟨if answer.truthy then answer else .str "", traceId, "openai", latency⟩
  | .deepseek =>
    match requireEnv env.DEEPSEEK_API_KEY "DEEPSEEK_API_KEY" "deepseek provider" with
    | .error e => .error e
    | .ok _apiKey =>
      match f with
      | .thrown m => .error (.err m)
      | .resp ok status statusText textBody latency =>
        if ok = false then
          .error (.err ("Upstream deepseek error: HTTP " ++ toString status ++ " " ++ statusText
            ++ " " ++ textBody))
        else
          let json := (parse textBody).getD (.obj [])
          let answer := buildAnswer json
          .ok ⟨if answer.truthy then answer else .str "", traceId, "deepseek", latency⟩

end TChat

namespace GenReview

/-! ## `GenerateReviewService` (`src/generate-review/generate-review.service.ts`) -/

/-- `ServiceError` (status, message). -/
structure ServiceError where
  status : Nat
  message : String
deriving DecidableEq, Repr

/-- `asOptionalString`: trimmed non-empty string or `null`. -/
def asOptionalString : Json → Option String
  | .str s => let t := jsTrim s; if t = "" then none else some t
  | _ => none

/-- First `e`/`E` split of a numeric literal. -/
def splitAtExpChar : List Char → List Char × Option (List Char)
  | [] => ([], none)
  | c :: rest =>
    if c = 'e' || c = 'E' then ([], some rest)
    else
      let (m, e) := splitAtExpChar rest
      (c :: m, e)

/-- Unsigned decimal mantissa `digits[.digits]` (at least one digit). -/
def parseUnsignedDec (cs : List Char) : Option Rat :=
  let intPart := cs.takeWhile Char.isDigit
  let rest₁ := cs.drop intPart.length
  match rest₁ with
  | [] => if intPart = [] then none else some ((natOfDigits intPart : Int) : Rat)
  | c :: rest₂ =>
    if c = '.' then
      let fracPart := rest₂.takeWhile Char.isDigit
      let rest₃ := rest₂.drop fracPart.length
      if rest₃ ≠ [] then none
      else if intPart = [] && fracPart = [] then none
      else
        some (((natOfDigits intPart : Int) : Rat)
          + ((natOfDigits fracPart : Int) : Rat) / ((10 : Rat) ^ fracPart.length))
    else none

/-- Signed mantissa. -/
def parseSignedMantissa (cs : List Char) : Option Rat :=
  match cs with
  | c :: rest =>
    if c = '-' then (parseUnsignedDec rest).map (fun q => -q)
    else if c = '+' then parseUnsignedDec rest
    else parseUnsignedDec cs
  | [] => none

/-- Signed exponent. -/
def parseSignedExp (cs : List Char) : Option Int :=
  match cs with
  | c :: rest =>
    if c = '-' then
      if rest ≠ [] && rest.all Char.isDigit then some (-(natOfDigits rest : Int)) else none
    else if c = '+' then
      if rest ≠ [] && rest.all Char.isDigit then some ((natOfDigits rest : Int)) else none
    else if cs.all Char.isDigit then some ((natOfDigits cs : Int)) else none
  | [] => none

/-- Model of `Number(t)` for a trimmed, non-empty string: signed decimal
with optional fraction and exponent.  (Hex/octal/binary literals and
`Infinity` are not modelled; the former do not occur in this development
and the latter is rejected by `Number.isFinite` anyway.) -/
def jsNumberOfString (t : String) : Option Rat :=
  let (m, e) := splitAtExpChar t.data
  match parseSignedMantissa m with
  | none => none
  | some q =>
    match e with
    | none => some q
    | some ecs =>
      match parseSignedExp ecs with
      | none => none
      | some k => some (q * (10 : Rat) ^ (k : Int))

/-- `asNumber`: finite numbers pass through, numeric strings are coerced,
everything else is `null`.  There is no range restriction. -/
def asNumber : Json → Option Rat
  | .num q => some q
  | .str s =>
    let t := jsTrim s
    if t = "" then none else jsNumberOfString t
  | _ => none

/-- `asObject`: a truthy non-array object. -/
def asObject : Json → Option (List (String × Json))
  | .obj fs => some fs
  | _ => none

/-- `asStringArray`. -/
def asStringArray : Json → List String
  | .arr xs => (xs.map fun j =>
      match j with
      | .str s => jsTrim s
      | _ => "").filter (fun s => s ≠ "")
  | _ => []

/-- `wordCount`: split on whitespace runs after trimming. -/
def wordCount (text : String) : Nat :=
  (text.data.foldl
    (fun acc c =>
      if c.isWhitespace then (acc.1, false)
      else if acc.2 then acc else (acc.1 + 1, true))
    ((0 : Nat), false)).1

def REVIEW_DECISIONS : List String :=
  ["SPEAK", "SILENCE", "EXPLAIN_CONFLICT", "ASK_LIGHT_QUESTION"]

/-- A validated review decision (`ReviewResult`). -/
structure ReviewResult where
  decisionType : String
  confidence : Rat
  reviewText : Option String := none
  silenceReason : Option String := none
  conflictExplanation : Option String := none
  lightQuestion : Option String := none
  anchorsUsed : Option (List String) := none
  mismatches : Option (List Json) := none
  structuralMatch : Option Bool := none

/-- `root[k]` with an absent key reading as `undefined` (modelled `.null`,
which every `as…` helper maps the same way). -/
def rootGet (root : List (String × Json)) (k : String) : Json :=
  (lookupField root k).getD .null

/-- The optional-field pass at the end of `parseModelResult`
(`anchors_used`, `mismatches`, `structural_match`, camelCase aliases). -/
def withOptionalFields (r : ReviewResult) (root : List (String × Json)) : ReviewResult :=
  let snake := asStringArray (rootGet root "anchors_used")
  let anchorsUsed := if snake.length > 0 then snake else asStringArray (rootGet root "anchorsUsed")
  let r := if anchorsUsed.length > 0 then { r with anchorsUsed := some anchorsUsed } else r
  let mismatches :=
    match rootGet root "mismatches" with
    | .arr xs => xs
    | _ => []
  let r := if mismatches.length > 0 then { r with mismatches := some mismatches } else r
  let sm : Option Bool :=
    match rootGet root "structural_match" with
    | .bool b => some b
    | _ =>
      match rootGet root "structuralMatch" with
      | .bool b => some b
      | _ => none
  match sm with
  | some b => { r with structuralMatch := some b }
  | none => r

/-- `GenerateReviewService.parseModelResult`, taken after the
`extractJsonPayload` + `JSON.parse` step: `parsed` is the parse result of
the cleaned output text (`none` models a parse exception).  Enforces the
decision-type enum, a numeric `confidence`, and the per-decision required
text field. -/
def parseModelResult (parsed : Option Json) : Except ServiceError ReviewResult :=
  match parsed with
  | none => .error ⟨502, "Invalid model output JSON"⟩
  | some p =>
    match asObject p with
    | none => .error ⟨502, "Invalid model output shape"⟩
    | some root =>
      let dv :=
        match asOptionalString (rootGet root "decision_type") with
        | some s => some s
        | none => asOptionalString (rootGet root "decisionType")
      match dv with
      | none => .error ⟨502, "Invalid decision_type in model output"⟩
      | some d =>
        if REVIEW_DECISIONS.contains d = false then
          .error ⟨502, "Invalid decision_type in model output"⟩
        else
          match asNumber (rootGet root "confidence") with
          | none => .error ⟨502, "confidence must be a number"⟩
          | some conf =>
            let base : ReviewResult := { decisionType := d, confidence := conf }
            if d = "SPEAK" then
              match
                (match asOptionalString (rootGet root "review_text") with
                 | some s => some s
                 | none => asOptionalString (rootGet root "reviewText"))
              with
              | none => .error ⟨502, "review_text is required for SPEAK"⟩
              | some rt =>
                if wordCount rt < 500 then
                  .error ⟨502, "review_text must be at least 500 words for SPEAK"⟩
                else .ok (withOptionalFields { base with reviewText := some rt } root)
            else if d = "SILENCE" then
              match
                (match asOptionalString (rootGet root "silence_reason") with
                 | some s => some s
                 | none =>
                   match asOptionalString (rootGet root "silenceReason") with
                   | some s => some s
                   | none => asOptionalString (rootGet root "reason"))
              with
              | none => .error ⟨502, "silence_reason is required for SILENCE"⟩
              | some sr => .ok (withOptionalFields { base with silenceReason := some sr } root)
            else if d = "EXPLAIN_CONFLICT" then
              match
                (match asOptionalString (rootGet root "conflict_explanation") with
                 | some s => some s
                 | none => asOptionalString (rootGet root "conflictExplanation"))
              with
              | none => .error ⟨502, "conflict_explanation is required for EXPLAIN_CONFLICT"⟩
              | some ce =>
                .ok (withOptionalFields { base with conflictExplanation := some ce } root)
            else
              match
                (match asOptionalString (rootGet root "light_question") with
                 | some s => some s
                 | none => asOptionalString (rootGet root "lightQuestion"))
              with
              | none => .error ⟨502, "light_question is required for ASK_LIGHT_QUESTION"⟩
              | some lq =>
                .ok (withOptionalFields { base with lightQuestion := some lq } root)

end GenReview


/-! # Claim theorems -/

/-! ## C6 — normalizer extraction order -/

/-- A response body whose `output` array carries its text in the SECOND
item: `{output: [{content: []}, {content: [{text: "hi"}]}]}`. -/
def c6Body : Json :=
  .obj [("output", .arr [.obj [("content", .arr [])],
                         .obj [("content", .arr [.obj [("text", .str "hi")]])]])]

/-- C6 counterexample: the claim says rule 2 collects text "for each item and
each of its content blocks" of the structured `output` array, but
`extractTextFromProviderBody` reads only `output[0]`.  On a body whose text
sits in the second item, the code returns `null` while the claimed algorithm
returns "hi". -/
theorem C6_first_item_counterexample :
    Justus.extractTextFromProviderBody c6Body = none ∧
    Justus.extractClaimed c6Body = some "hi" := by
  exact ⟨by decide, by decide⟩

/-- C6 (corrected): the normalizer applies its extraction rules in the fixed
first-match-wins order (1) top-level `output_text`; (2) the structured
`output` array — but collecting only the FIRST item's content blocks, not
every item; (3) `choices[0].message.content`; (4) generic fallback fields
`text`, `output`, `result`, `response` in that priority order; it returns
null only if no rule yields a non-blank string.  Stated as the equivalence
of the source translation with the ordered rule pipeline
(`firstSome [rule1, rule2First, rule3, rule4]`), plus the spec's two
normalizer round-trip examples. -/
theorem C6_extraction_order :
    (∀ b : Json, Justus.extractTextFromProviderBody b = Justus.extractOrdered b) ∧
    Justus.extractTextFromProviderBody
      (.obj [("choices", .arr [.obj [("message", .obj [("content", .str "hi")])]])]) =
      some "hi" ∧
    Justus.extractTextFromProviderBody
      (.obj [("output", .arr [.obj [("content",
        .arr [.obj [("text", .str "a")], .obj [("text", .str "b")]])]])]) =
      some "ab" := by
  refine ⟨fun b => ?_, by decide, by decide⟩
  unfold Justus.extractTextFromProviderBody Justus.extractOrdered Justus.firstSome
  simp only [Justus.rule1, Justus.rule2First, Justus.rule3, Justus.rule4]
  by_cases hb : b.truthy = false
  · simp [hb]
  · simp only [hb, if_false]
    simp only [Justus.firstSome]
    repeat' split <;> try rfl
    all_goals simp_all [Justus.rule1, Justus.rule2First, Justus.rule3, Justus.rule4]

/-! ## C5 — invalid input rejected before any adapter call -/

/-- C5: for every route request whose `input` is empty, missing, or not a
string (equivalently: not a non-empty string), the LLM router returns a 400
envelope with the validation message and invokes zero adapters. -/
theorem C5_invalid_input_rejected :
    ∀ (env : Justus.LlmEnv) (parse : String → Option Json) (fD fO : Justus.FetchOutcome)
      (p : Justus.RouterPayload) (t : String),
      (∀ s, p.input = some (.str s) → s = "") →
      Justus.route env parse fD fO p t =
        (⟨400, .failure ⟨["input is required and must be a string"], t, none⟩⟩, []) := by
  intro env parse fD fO p t h
  have hbad : Justus.validateRequestPayload p =
      .error ⟨400, "input is required and must be a string", none⟩ := by
    unfold Justus.validateRequestPayload
    rcases hp : p.input with _ | j
    · rfl
    · cases j with
      | str s =>
        have hs := h s hp
        subst hs
        simp [Json.truthy]
      | _ => simp [Json.truthy]
  simp [Justus.route, hbad]

/-- C5 witness: the empty payload (missing `input`) at concrete arguments. -/
theorem C5_invalid_input_rejected_witness :
    (∀ s, ({} : Justus.RouterPayload).input = some (.str s) → s = "") ∧
    Justus.route {} (fun _ => none) .abort .abort {} "t" =
      (⟨400, .failure ⟨["input is required and must be a string"], "t", none⟩⟩, []) :=
  ⟨fun _ h => Option.noConfusion h,
   C5_invalid_input_rejected {} (fun _ => none) .abort .abort {} "t"
     (fun _ h => Option.noConfusion h)⟩

/-! ## C9 — output-contract confidence validation -/

/-- `withOptionalFields` only touches the optional fields. -/
theorem GenReview.withOptionalFields_confidence (r : GenReview.ReviewResult)
    (root : List (String × Json)) :
    (GenReview.withOptionalFields r root).confidence = r.confidence := by
  simp only [GenReview.withOptionalFields]
  repeat' split
  all_goals rfl

/-- A model decision whose `confidence` is the negative number −1. -/
def c9Parsed : Option Json :=
  some (.obj [("decision_type", .str "SILENCE"), ("confidence", .num (-1)),
              ("silence_reason", .str "quiet")])

/-- C9 counterexample: the claim says every successfully validated decision
carries a confidence in [0, ∞), but `asNumber` applies no range check: a
decision with `confidence: -1` validates successfully and carries a negative
confidence. -/
theorem C9_negative_confidence_counterexample :
    GenReview.parseModelResult c9Parsed =
      .ok { decisionType := "SILENCE", confidence := -1, silenceReason := some "quiet" } ∧
    ({ decisionType := "SILENCE", confidence := -1,
       silenceReason := some "quiet" } : GenReview.ReviewResult).confidence < 0 :=
  ⟨rfl, by decide⟩

/-- C9 (corrected): the validator requires `confidence` to be present and
numeric — numeric strings are coerced via `Number(...)`, a missing or
non-numeric value fails with "confidence must be a number" — and every
successfully validated decision carries exactly the coerced number, which
may be ANY finite rational (negative values included; no [0, ∞) clamp). -/
theorem C9_confidence_validation :
    (∀ (parsed : Option Json) (r : GenReview.ReviewResult),
        GenReview.parseModelResult parsed = .ok r →
        ∃ root, parsed = some (.obj root) ∧
          GenReview.asNumber (GenReview.rootGet root "confidence") = some r.confidence) ∧
    (∀ root : List (String × Json),
        GenReview.asNumber (GenReview.rootGet root "confidence") = none →
        ∀ r : GenReview.ReviewResult, GenReview.parseModelResult (some (.obj root)) ≠ .ok r) ∧
    GenReview.asNumber (.str "2") = some 2 ∧
    GenReview.asNumber (.str "-1") = some (-1) ∧
    GenReview.asNumber .null = none ∧
    GenReview.asNumber (.bool true) = none := by
  refine ⟨?_, ?_, by decide, by decide, rfl, rfl⟩
  · intro parsed r h
    match parsed with
    | none => exact absurd h (by simp [GenReview.parseModelResult])
    | some (.obj root) =>
      simp only [GenReview.parseModelResult, GenReview.asObject] at h
      repeat' split at h
      all_goals first
        | exact Except.noConfusion h
        | (simp only [Except.ok.injEq] at h; subst h;
           refine ⟨root, rfl, ?_⟩; rw [GenReview.withOptionalFields_confidence]; assumption)
    | some .null => exact absurd h (by simp [GenReview.parseModelResult, GenReview.asObject])
    | some (.bool b) => exact absurd h (by simp [GenReview.parseModelResult, GenReview.asObject])
    | some (.num q) => exact absurd h (by simp [GenReview.parseModelResult, GenReview.asObject])
    | some (.str s) => exact absurd h (by simp [GenReview.parseModelResult, GenReview.asObject])
    | some (.arr xs) => exact absurd h (by simp [GenReview.parseModelResult, GenReview.asObject])
  · intro root hconf r
    simp only [GenReview.parseModelResult, GenReview.asObject]
    repeat' split <;> simp_all

/-- A well-formed decision used to witness C9. -/
def c9wParsed : Option Json :=
  some (.obj [("decision_type", .str "ASK_LIGHT_QUESTION"), ("confidence", .num 1),
              ("light_question", .str "why")])

/-- C9 witness: the first conjunct applied at a concrete validated decision. -/
theorem C9_confidence_validation_witness :
    GenReview.parseModelResult c9wParsed =
      .ok { decisionType := "ASK_LIGHT_QUESTION", confidence := 1,
            lightQuestion := some "why" } ∧
    ∃ root, c9wParsed = some (.obj root) ∧
      GenReview.asNumber (GenReview.rootGet root "confidence") =
        some ({ decisionType := "ASK_LIGHT_QUESTION", confidence := 1,
                lightQuestion := some "why" } : GenReview.ReviewResult).confidence :=
  ⟨rfl, C9_confidence_validation.1 c9wParsed _ rfl⟩

/-! ## C7 — no empty success on 2xx with unrecognizable body -/

/-- A normalization success always carries non-empty text. -/
theorem Justus.normalize_ok_text (p : Justus.LlmProvider) (s : Nat) (x : Option String)
    (b : Json) (t : String) (m : Justus.RawMeta) :
    Justus.normalizeProviderResponse p s x b = .ok (t, m) → t ≠ "" := by
  unfold Justus.normalizeProviderResponse
  intro h
  repeat' split at h
  all_goals first
    | exact Except.noConfusion h
    | (simp only [Except.ok.injEq, Prod.mk.injEq] at h
       rcases h with ⟨h1, h2⟩
       subst h1
       assumption)

/-- A successful DeepSeek adapter call never returns empty output text. -/
theorem Justus.callDeepseek_ok_output (env : Justus.LlmEnv) (parse : String → Option Json)
    (f : Justus.FetchOutcome) (req : Justus.NormalizedRequest) (tr : String)
    (r : Justus.ProviderResult) :
    Justus.callDeepseek env parse f req tr = .ok r → r.output_text ≠ "" := by
  intro h
  simp only [Justus.callDeepseek] at h
  repeat' split at h
  all_goals first
    | exact Except.noConfusion h
    | (simp only [Except.ok.injEq] at h
       subst h
       exact Justus.normalize_ok_text _ _ _ _ _ _ (by assumption))

/-- A successful OpenAI adapter call never returns empty output text. -/
theorem Justus.callOpenAi_ok_output (env : Justus.LlmEnv) (parse : String → Option Json)
    (f : Justus.FetchOutcome) (req : Justus.NormalizedRequest) (tr : String)
    (r : Justus.ProviderResult) :
    Justus.callOpenAi env parse f req tr = .ok r → r.output_text ≠ "" := by
  intro h
  simp only [Justus.callOpenAi] at h
  repeat' split at h
  all_goals first
    | exact Except.noConfusion h
    | (simp only [Except.ok.injEq] at h
       subst h
       exact Justus.normalize_ok_text _ _ _ _ _ _ (by assumption))

/-- C7 counterexample: `TranslationChatService.callProvider`, cited by the
claim, returns `{reply: ""}` as a SUCCESS on a 2xx response whose body (`{}`)
yields no extractable text — it does not treat the call as an upstream
failure. -/
theorem C7_chat_empty_reply_counterexample :
    TChat.callProvider { DEEPSEEK_API_KEY := some "k" } (fun _ => none)
        (.resp true 200 "OK" "\x7b\x7d" 5) .deepseek [] "" "t" =
      .ok ⟨.str "", "t", "deepseek", 5⟩ := rfl

/-- C7 (corrected): in the LLM router a 2xx upstream response from which the
normalizer extracts no non-blank text is turned into a 502 upstream error
naming the provider, and a successful adapter result never carries empty
output text; the translation chat service, by contrast, returns a successful
reply of the empty string in that situation. -/
theorem C7_no_empty_success :
    (∀ (p : Justus.LlmProvider) (s : Nat) (x : Option String) (b : Json),
        Justus.extractTextFromProviderBody b = none →
        Justus.normalizeProviderResponse p s x b =
          .error ⟨502, "Provider " ++ p.name ++ " returned no recognizable text field", none⟩) ∧
    (∀ (env : Justus.LlmEnv) (parse : String → Option Json) (f : Justus.FetchOutcome)
        (req : Justus.NormalizedRequest) (tr : String) (r : Justus.ProviderResult),
        Justus.callDeepseek env parse f req tr = .ok r → r.output_text ≠ "") ∧
    (∀ (env : Justus.LlmEnv) (parse : String → Option Json) (f : Justus.FetchOutcome)
        (req : Justus.NormalizedRequest) (tr : String) (r : Justus.ProviderResult),
        Justus.callOpenAi env parse f req tr = .ok r → r.output_text ≠ "") ∧
    TChat.callProvider { DEEPSEEK_API_KEY := some "k" } (fun _ => none)
        (.resp true 200 "OK" "\x7b\x7d" 5) .deepseek [] "" "t" =
      .ok ⟨.str "", "t", "deepseek", 5⟩ := by
  refine ⟨?_, Justus.callDeepseek_ok_output, Justus.callOpenAi_ok_output, rfl⟩
  intro p s x b hb
  unfold Justus.normalizeProviderResponse
  rw [hb]

/-- C7 witness: the normalization-failure conjunct applied at an empty
object body. -/
theorem C7_no_empty_success_witness :
    Justus.extractTextFromProviderBody (.obj []) = none ∧
    Justus.normalizeProviderResponse .deepseek 200 none (.obj []) =
      .error ⟨502, "Provider deepseek returned no recognizable text field", none⟩ :=
  ⟨rfl, C7_no_empty_success.1 .deepseek 200 none (.obj []) rfl⟩

/-! ## C1 — forced provider: exactly one adapter, no fallback -/

/-- Environment with both providers fully configured. -/
def c1Env : Justus.LlmEnv :=
  { DEEPSEEK_API_KEY := some "k", DEEPSEEK_URL := some "u", OPENAI_KIA_API_KEY := some "k2" }

/-- A valid request forcing the DeepSeek provider. -/
def c1Payload : Justus.RouterPayload :=
  { provider := some (.str "deepseek"), input := some (.str "hi") }

/-- C1 counterexample: a forced DeepSeek request whose adapter call times
out returns a 504 whose message does not name the provider — not the
claimed "502 error naming that provider" (the adapter is still the only
one invoked). -/
theorem C1_forced_timeout_counterexample :
    Justus.route c1Env (fun _ => none) .abort .abort c1Payload "t" =
      (⟨504, .failure ⟨["Provider request timed out after 10000ms"], "t", none⟩⟩,
       [.deepseek]) ∧
    (504 : Nat) ≠ 502 :=
  ⟨rfl, by decide⟩

/-- C1 (corrected): for every valid route request naming a forced provider,
exactly that one adapter is invoked and no fallback is attempted, in both
routers.  In the translation router every forced failure surfaces as a
single 502 naming the provider; in the LLM router only upstream HTTP (and
normalization) failures surface as a 502 naming the provider — timeouts
surface as 504 and missing configuration as 500 (see the counterexample and
claim C4). -/
theorem C1_forced_provider_exclusive :
    (∀ (env : Justus.LlmEnv) (parse : String → Option Json) (fD fO : Justus.FetchOutcome)
        (p : Justus.RouterPayload) (t : String) (v : Justus.NormalizedRequest),
        Justus.validateRequestPayload p = .ok v → v.provider = some .deepseek →
        (Justus.route env parse fD fO p t).2 = [.deepseek]) ∧
    (∀ (env : Justus.LlmEnv) (parse : String → Option Json) (fD fO : Justus.FetchOutcome)
        (p : Justus.RouterPayload) (t : String) (v : Justus.NormalizedRequest),
        Justus.validateRequestPayload p = .ok v → v.provider = some .openai →
        (Justus.route env parse fD fO p t).2 = [.openai]) ∧
    (∀ (env : Justus.LlmEnv) (parse : String → Option Json) (fO : Justus.FetchOutcome)
        (p : Justus.RouterPayload) (t : String) (v : Justus.NormalizedRequest)
        (cfg : Justus.DeepseekConfig) (status : Nat) (xrid : Option String) (text : String),
        Justus.validateRequestPayload p = .ok v → v.provider = some .deepseek →
        Justus.getDeepseekConfig env = .ok cfg →
        Justus.route env parse (.resp false status xrid text) fO p t =
          (⟨502, .failure ⟨["DeepSeek HTTP " ++ toString status], t,
             some (.obj [("body", (if text = "" then none else parse text).getD (.str text))])⟩⟩,
           [.deepseek])) ∧
    (∀ (env : Kiaspora.TransEnv) (parse : String → Option Json)
        (fD fG fO : Kiaspora.TFetchOutcome) (body : Json) (t : String)
        (v : Kiaspora.TNormalized),
        Kiaspora.validate body = .ok v → v.provider = some .deepseek →
        (Kiaspora.handle env parse fD fG fO body t).2 = [.deepseek] ∧
        ∀ err, Kiaspora.callDeepSeek env parse fD (Kiaspora.payloadOf v) t = .error err →
          (Kiaspora.handle env parse fD fG fO body t).1 =
            .error (Kiaspora.forcedWrap "DeepSeek" "DEEPSEEK_UNAVAILABLE" err)) ∧
    (∀ (env : Kiaspora.TransEnv) (parse : String → Option Json)
        (fD fG fO : Kiaspora.TFetchOutcome) (body : Json) (t : String)
        (v : Kiaspora.TNormalized),
        Kiaspora.validate body = .ok v → v.provider = some .groq →
        (Kiaspora.handle env parse fD fG fO body t).2 = [.groq] ∧
        ∀ err, Kiaspora.callGroq env parse fG (Kiaspora.payloadOf v) t = .error err →
          (Kiaspora.handle env parse fD fG fO body t).1 =
            .error (Kiaspora.forcedWrap "Groq" "GROQ_UNAVAILABLE" err)) ∧
    (∀ (env : Kiaspora.TransEnv) (parse : String → Option Json)
        (fD fG fO : Kiaspora.TFetchOutcome) (body : Json) (t : String)
        (v : Kiaspora.TNormalized),
        Kiaspora.validate body = .ok v → v.provider = some .openai →
        (Kiaspora.handle env parse fD fG fO body t).2 = [.openai] ∧
        ∀ err, Kiaspora.callOpenAI env parse fO (Kiaspora.payloadOf v) t = .error err →
          (Kiaspora.handle env parse fD fG fO body t).1 =
            .error (Kiaspora.forcedWrap "OpenAI" "OPENAI_UNAVAILABLE" err)) := by
  refine ⟨?_, ?_, ?_, ?_, ?_, ?_⟩
  · intro env parse fD fO p t v hv hp
    simp only [Justus.route, hv, hp]
  · intro env parse fD fO p t v hv hp
    simp only [Justus.route, hv, hp]
  · intro env parse fO p t v cfg status xrid text hv hp hcfg
    simp [Justus.route, hv, hp, Justus.callDeepseek, hcfg, Justus.failureOfThrown]
  · intro env parse fD fG fO body t v hv hp
    refine ⟨by simp only [Kiaspora.handle, hv, hp], ?_⟩
    intro err herr
    simp only [Kiaspora.handle, hv, hp, herr]
  · intro env parse fD fG fO body t v hv hp
    refine ⟨by simp only [Kiaspora.handle, hv, hp], ?_⟩
    intro err herr
    simp only [Kiaspora.handle, hv, hp, herr]
  · intro env parse fD fG fO body t v hv hp
    refine ⟨by simp only [Kiaspora.handle, hv, hp], ?_⟩
    intro err herr
    simp only [Kiaspora.handle, hv, hp, herr]

/-- C1 witness: the forced-DeepSeek conjunct at concrete arguments. -/
theorem C1_forced_provider_exclusive_witness :
    Justus.validateRequestPayload c1Payload =
      .ok ⟨some .deepseek, "hi", none, none⟩ ∧
    (Justus.route c1Env (fun _ => none) .abort .abort c1Payload "t").2 = [.deepseek] :=
  ⟨rfl, C1_forced_provider_exclusive.1 c1Env (fun _ => none) .abort .abort c1Payload "t"
     ⟨some .deepseek, "hi", none, none⟩ rfl rfl⟩

/-! ## C2 — automatic fallback order and short-circuit -/

/-- C2: with no forced provider, the routers try adapters in the configured
priority order (LLM: DeepSeek → OpenAI; translation: DeepSeek → Groq →
OpenAI), return the first success unchanged, invoke exactly the prefix of
adapters up to the first success, and call no adapter afterwards. -/
theorem C2_fallback_order :
    (∀ (env : Justus.LlmEnv) (parse : String → Option Json) (fD fO : Justus.FetchOutcome)
        (p : Justus.RouterPayload) (t : String) (v : Justus.NormalizedRequest)
        (r : Justus.ProviderResult),
        Justus.validateRequestPayload p = .ok v → v.provider = none →
        Justus.callDeepseek env parse fD v t = .ok r →
        Justus.route env parse fD fO p t = (⟨200, .success r⟩, [.deepseek])) ∧
    (∀ (env : Justus.LlmEnv) (parse : String → Option Json) (fD fO : Justus.FetchOutcome)
        (p : Justus.RouterPayload) (t : String) (v : Justus.NormalizedRequest)
        (e : Justus.Thrown) (r : Justus.ProviderResult),
        Justus.validateRequestPayload p = .ok v → v.provider = none →
        Justus.callDeepseek env parse fD v t = .error e →
        Justus.callOpenAi env parse fO v t = .ok r →
        Justus.route env parse fD fO p t = (⟨200, .success r⟩, [.deepseek, .openai])) ∧
    (∀ (env : Kiaspora.TransEnv) (parse : String → Option Json)
        (fD fG fO : Kiaspora.TFetchOutcome) (body : Json) (t : String)
        (v : Kiaspora.TNormalized) (r : Kiaspora.ProviderResult200),
        Kiaspora.validate body = .ok v → v.provider = none →
        Kiaspora.callDeepSeek env parse fD (Kiaspora.payloadOf v) t = .ok r →
        Kiaspora.handle env parse fD fG fO body t = (.ok r, [.deepseek])) ∧
    (∀ (env : Kiaspora.TransEnv) (parse : String → Option Json)
        (fD fG fO : Kiaspora.TFetchOutcome) (body : Json) (t : String)
        (v : Kiaspora.TNormalized) (e : Kiaspora.TThrown) (r : Kiaspora.ProviderResult200),
        Kiaspora.validate body = .ok v → v.provider = none →
        Kiaspora.callDeepSeek env parse fD (Kiaspora.payloadOf v) t = .error e →
        Kiaspora.callGroq env parse fG (Kiaspora.payloadOf v) t = .ok r →
        Kiaspora.handle env parse fD fG fO body t = (.ok r, [.deepseek, .groq])) ∧
    (∀ (env : Kiaspora.TransEnv) (parse : String → Option Json)
        (fD fG fO : Kiaspora.TFetchOutcome) (body : Json) (t : String)
        (v : Kiaspora.TNormalized) (e₁ e₂ : Kiaspora.TThrown) (r : Kiaspora.ProviderResult200),
        Kiaspora.validate body = .ok v → v.provider = none →
        Kiaspora.callDeepSeek env parse fD (Kiaspora.payloadOf v) t = .error e₁ →
        Kiaspora.callGroq env parse fG (Kiaspora.payloadOf v) t = .error e₂ →
        Kiaspora.callOpenAI env parse fO (Kiaspora.payloadOf v) t = .ok r →
        Kiaspora.handle env parse fD fG fO body t = (.ok r, [.deepseek, .groq, .openai])) := by
  refine ⟨?_, ?_, ?_, ?_, ?_⟩
  · intro env parse fD fO p t v r hv hp h1
    simp only [Justus.route, hv, hp, h1]
  · intro env parse fD fO p t v e r hv hp h1 h2
    simp only [Justus.route, hv, hp, h1, h2]
  · intro env parse fD fG fO body t v r hv hp h1
    simp only [Kiaspora.handle, hv, hp, h1]
  · intro env parse fD fG fO body t v e r hv hp h1 h2
    simp only [Kiaspora.handle, hv, hp, h1, h2]
  · intro env parse fD fG fO body t v e₁ e₂ r hv hp h1 h2 h3
    simp only [Kiaspora.handle, hv, hp, h1, h2, h3]

/-- Translation environment where only Groq is configured. -/
def c2Env : Kiaspora.TransEnv := { GROQ_KIA_API_KEY := some "gk" }

/-- A valid translation request with no forced provider. -/
def c2Body : Json := .obj [("sourceText", .str "hola"), ("targetLang", .str "en")]

def c2Norm : Kiaspora.TNormalized := ⟨none, "hola", "auto", "en", none, none⟩

def c2E1 : Kiaspora.TThrown :=
  .http ⟨500, "Missing DEEPSEEK_API_KEY", some "MISSING_DEEPSEEK_API_KEY", none⟩

def c2R : Kiaspora.ProviderResult200 :=
  ⟨Json.stringify (Kiaspora.translationWrapper "" "hola"), "auto", .groq, 3,
   Kiaspora.transMeta "llama-3.1-8b-instant" (.obj [])⟩

/-- C2 witness: DeepSeek fails (missing key), Groq succeeds, OpenAI is
never consulted. -/
theorem C2_fallback_order_witness :
    Kiaspora.validate c2Body = .ok c2Norm ∧
    Kiaspora.callDeepSeek c2Env (fun _ => none) (.thrown "x")
      (Kiaspora.payloadOf c2Norm) "t" = .error c2E1 ∧
    Kiaspora.callGroq c2Env (fun _ => none) (.resp true 200 "OK" "" 3)
      (Kiaspora.payloadOf c2Norm) "t" = .ok c2R ∧
    Kiaspora.handle c2Env (fun _ => none) (.thrown "x") (.resp true 200 "OK" "" 3)
      (.thrown "y") c2Body "t" = (.ok c2R, [.deepseek, .groq]) :=
  ⟨rfl, rfl, rfl,
   C2_fallback_order.2.2.2.1 c2Env (fun _ => none) (.thrown "x") (.resp true 200 "OK" "" 3)
     (.thrown "y") c2Body "t" c2Norm c2E1 c2R rfl rfl rfl rfl⟩

/-! ## C3 — exhausted fallback -/

/-- Both providers configured; used by the C3 counterexample. -/
def c3Env : Justus.LlmEnv :=
  { DEEPSEEK_API_KEY := some "k", DEEPSEEK_URL := some "u", OPENAI_KIA_API_KEY := some "k2" }

/-- A valid LLM-router payload with no forced provider. -/
def c3Payload : Justus.RouterPayload := { input := some (.str "hi") }

/-- C3 counterexample: in the LLM router (cited by the claim) an
all-providers-fail run (DeepSeek times out, OpenAI returns HTTP 500)
surfaces OpenAI's own individual error — not a 502 aggregate
"providers unavailable" error. -/
theorem C3_individual_error_counterexample :
    Justus.route c3Env (fun _ => none) .abort (.resp false 500 none "oops") c3Payload "t" =
      (⟨502, .failure ⟨["OpenAI HTTP 500"], "t", some (.obj [("body", .str "oops")])⟩⟩,
       [.deepseek, .openai]) ∧
    (["OpenAI HTTP 500"] ≠
      ["Translation providers are currently unavailable; please try again later"]) :=
  ⟨rfl, by decide⟩

/-- C3 (corrected): when every adapter of the translation router fails (any
mix of failure kinds: config errors, thrown fetch errors, HTTP failures),
the router returns the single 502 aggregate "Translation providers are
currently unavailable" error, not any adapter's own error.  The LLM router
has no aggregate: when both of its adapters fail it surfaces the SECOND
adapter's own error unchanged. -/
theorem C3_exhausted_fallback :
    (∀ (env : Kiaspora.TransEnv) (parse : String → Option Json)
        (fD fG fO : Kiaspora.TFetchOutcome) (body : Json) (t : String)
        (v : Kiaspora.TNormalized) (e₁ e₂ e₃ : Kiaspora.TThrown),
        Kiaspora.validate body = .ok v → v.provider = none →
        Kiaspora.callDeepSeek env parse fD (Kiaspora.payloadOf v) t = .error e₁ →
        Kiaspora.callGroq env parse fG (Kiaspora.payloadOf v) t = .error e₂ →
        Kiaspora.callOpenAI env parse fO (Kiaspora.payloadOf v) t = .error e₃ →
        Kiaspora.handle env parse fD fG fO body t =
          (.error ⟨502, "Translation providers are currently unavailable; please try again later",
             some "PROVIDERS_UNAVAILABLE", some (.obj [("message", .str e₃.msgString)])⟩,
           [.deepseek, .groq, .openai])) ∧
    (∀ (env : Justus.LlmEnv) (parse : String → Option Json) (fD fO : Justus.FetchOutcome)
        (p : Justus.RouterPayload) (t : String) (v : Justus.NormalizedRequest)
        (e₁ e₂ : Justus.Thrown),
        Justus.validateRequestPayload p = .ok v → v.provider = none →
        Justus.callDeepseek env parse fD v t = .error e₁ →
        Justus.callOpenAi env parse fO v t = .error e₂ →
        Justus.route env parse fD fO p t =
          (Justus.failureOfThrown e₂ t, [.deepseek, .openai])) := by
  constructor
  · intro env parse fD fG fO body t v e₁ e₂ e₃ hv hp h1 h2 h3
    simp only [Kiaspora.handle, hv, hp, h1, h2, h3]
  · intro env parse fD fO p t v e₁ e₂ hv hp h1 h2
    simp only [Justus.route, hv, hp, h1, h2]

def c3TBody : Json := .obj [("sourceText", .str "hola"), ("targetLang", .str "en")]

def c3TNorm : Kiaspora.TNormalized := ⟨none, "hola", "auto", "en", none, none⟩

/-- C3 witness: the translation aggregate conjunct on an environment with no
provider configured. -/
theorem C3_exhausted_fallback_witness :
    Kiaspora.validate c3TBody = .ok c3TNorm ∧
    Kiaspora.handle {} (fun _ => none) (.thrown "x") (.thrown "x") (.thrown "x") c3TBody "t" =
      (.error ⟨502, "Translation providers are currently unavailable; please try again later",
         some "PROVIDERS_UNAVAILABLE",
         some (.obj [("message", .str "Missing OPENAI_KIA_API_KEY")])⟩,
       [.deepseek, .groq, .openai]) :=
  ⟨rfl,
   C3_exhausted_fallback.1 {} (fun _ => none) (.thrown "x") (.thrown "x") (.thrown "x")
     c3TBody "t" c3TNorm
     (.http ⟨500, "Missing DEEPSEEK_API_KEY", some "MISSING_DEEPSEEK_API_KEY", none⟩)
     (.http ⟨500, "Missing GROQ_KIA_API_KEY", some "MISSING_GROQ_KIA_API_KEY", none⟩)
     (.http ⟨500, "Missing OPENAI_KIA_API_KEY", some "MISSING_OPENAI_KIA_API_KEY", none⟩)
     rfl rfl rfl rfl rfl⟩

/-! ## C4 — forced provider with missing configuration -/

/-- A translation request forcing DeepSeek. -/
def c4Body : Json :=
  .obj [("provider", .str "deepseek"), ("sourceText", .str "hola"), ("targetLang", .str "en")]

/-- C4 counterexample: in the translation router (cited by the claim), a
forced DeepSeek request with no `DEEPSEEK_API_KEY` returns a 502 provider-
unavailable wrap, not the claimed 500 server-misconfiguration error. -/
theorem C4_translation_wrap_counterexample :
    Kiaspora.handle {} (fun _ => none) (.thrown "x") (.thrown "x") (.thrown "x") c4Body "t" =
      (.error ⟨502, "DeepSeek translation is currently unavailable; please try again later",
         some "DEEPSEEK_UNAVAILABLE",
         some (.obj [("message", .str "Missing DEEPSEEK_API_KEY")])⟩,
       [.deepseek]) ∧
    (502 : Nat) ≠ 500 :=
  ⟨rfl, by decide⟩

/-- C4 (corrected): in the LLM router a forced route whose provider lacks
its required credentials or endpoint returns a 500 server-misconfiguration
error, distinct from the 502 used for upstream failures; the translation
router instead swallows the 500 config error of a forced provider and
re-surfaces it inside the generic 502 provider-unavailable wrap. -/
theorem C4_forced_config_error :
    (∀ (env : Justus.LlmEnv) (parse : String → Option Json) (fD fO : Justus.FetchOutcome)
        (p : Justus.RouterPayload) (t : String) (v : Justus.NormalizedRequest),
        Justus.validateRequestPayload p = .ok v → v.provider = some .deepseek →
        envStr env.DEEPSEEK_API_KEY = "" →
        Justus.route env parse fD fO p t =
          (⟨500, .failure ⟨["DEEPSEEK_API_KEY missing"], t, none⟩⟩, [.deepseek])) ∧
    (∀ (env : Justus.LlmEnv) (parse : String → Option Json) (fD fO : Justus.FetchOutcome)
        (p : Justus.RouterPayload) (t : String) (v : Justus.NormalizedRequest),
        Justus.validateRequestPayload p = .ok v → v.provider = some .deepseek →
        envStr env.DEEPSEEK_API_KEY ≠ "" → envStr env.DEEPSEEK_URL = "" →
        Justus.route env parse fD fO p t =
          (⟨500, .failure ⟨["DEEPSEEK_URL missing"], t, none⟩⟩, [.deepseek])) ∧
    (∀ (env : Justus.LlmEnv) (parse : String → Option Json) (fD fO : Justus.FetchOutcome)
        (p : Justus.RouterPayload) (t : String) (v : Justus.NormalizedRequest),
        Justus.validateRequestPayload p = .ok v → v.provider = some .openai →
        envStr env.OPENAI_KIA_API_KEY = "" →
        Justus.route env parse fD fO p t =
          (⟨500, .failure ⟨["OPENAI_KIA_API_KEY missing"], t, none⟩⟩, [.openai])) ∧
    (∀ (env : Kiaspora.TransEnv) (parse : String → Option Json)
        (fD fG fO : Kiaspora.TFetchOutcome) (body : Json) (t : String)
        (v : Kiaspora.TNormalized),
        Kiaspora.validate body = .ok v → v.provider = some .deepseek →
        Kiaspora.pickFirstEnv [env.DEEPSEEK_API_KEY, env.DEEPSEEK_API_KEY] = "" →
        Kiaspora.handle env parse fD fG fO body t =
          (.error (Kiaspora.forcedWrap "DeepSeek" "DEEPSEEK_UNAVAILABLE"
             (.http ⟨500, "Missing DEEPSEEK_API_KEY", some "MISSING_DEEPSEEK_API_KEY", none⟩)),
           [.deepseek])) := by
  refine ⟨?_, ?_, ?_, ?_⟩
  · intro env parse fD fO p t v hv hp hk
    simp [Justus.route, hv, hp, Justus.callDeepseek, Justus.getDeepseekConfig, hk,
      Justus.failureOfThrown]
  · intro env parse fD fO p t v hv hp hk hu
    simp [Justus.route, hv, hp, Justus.callDeepseek, Justus.getDeepseekConfig, hk, hu,
      Justus.failureOfThrown]
  · intro env parse fD fO p t v hv hp hk
    simp [Justus.route, hv, hp, Justus.callOpenAi, Justus.getOpenAiConfig, hk,
      Justus.failureOfThrown]
  · intro env parse fD fG fO body t v hv hp hk
    simp [Kiaspora.handle, hv, hp, Kiaspora.callDeepSeek, hk]

/-- A forced-DeepSeek LLM-router payload for the C4 witness. -/
def c4JPayload : Justus.RouterPayload :=
  { provider := some (.str "deepseek"), input := some (.str "hi") }

/-- C4 witness: the LLM-router missing-key conjunct at concrete arguments. -/
theorem C4_forced_config_error_witness :
    Justus.validateRequestPayload c4JPayload =
      .ok ⟨some .deepseek, "hi", none, none⟩ ∧
    envStr ({} : Justus.LlmEnv).DEEPSEEK_API_KEY = "" ∧
    Justus.route {} (fun _ => none) .abort .abort c4JPayload "t" =
      (⟨500, .failure ⟨["DEEPSEEK_API_KEY missing"], "t", none⟩⟩, [.deepseek]) :=
  ⟨rfl, rfl,
   C4_forced_config_error.1 {} (fun _ => none) .abort .abort c4JPayload "t"
     ⟨some .deepseek, "hi", none, none⟩ rfl rfl rfl⟩

/-! ## C8 — failure envelope shape -/

/-- A fetch outcome that settled (did not throw a foreign error). -/
def Justus.FetchOutcome.settled : Justus.FetchOutcome → Bool
  | .thrown _ _ _ => false
  | _ => true

/-- Validation errors carry no details payload. -/
theorem Justus.validate_err_details (p : Justus.RouterPayload) (e : Justus.HttpError) :
    Justus.validateRequestPayload p = .error e → e.details = none := by
  intro h
  simp only [Justus.validateRequestPayload] at h
  repeat' split at h
  all_goals first
    | exact Except.noConfusion h
    | (simp only [Except.error.injEq] at h; subst h; rfl)

/-- DeepSeek config errors carry no details payload. -/
theorem Justus.getDeepseekConfig_err_details (env : Justus.LlmEnv) (e : Justus.HttpError) :
    Justus.getDeepseekConfig env = .error e → e.details = none := by
  intro h
  simp only [Justus.getDeepseekConfig] at h
  repeat' split at h
  all_goals first
    | exact Except.noConfusion h
    | (simp only [Except.error.injEq] at h; subst h; rfl)

/-- OpenAI config errors carry no details payload. -/
theorem Justus.getOpenAiConfig_err_details (env : Justus.LlmEnv) (e : Justus.HttpError) :
    Justus.getOpenAiConfig env = .error e → e.details = none := by
  intro h
  simp only [Justus.getOpenAiConfig] at h
  repeat' split at h
  all_goals first
    | exact Except.noConfusion h
    | (simp only [Except.error.injEq] at h; subst h; rfl)

/-- Normalization errors carry no details payload. -/
theorem Justus.normalize_err_details (p : Justus.LlmProvider) (s : Nat) (x : Option String)
    (b : Json) (e : Justus.HttpError) :
    Justus.normalizeProviderResponse p s x b = .error e → e.details = none := by
  intro h
  simp only [Justus.normalizeProviderResponse] at h
  repeat' split at h
  all_goals first
    | exact Except.noConfusion h
    | (simp only [Except.error.injEq] at h; subst h; rfl)

/-- Every error the DeepSeek adapter throws is either the re-thrown foreign
fetch error, or an `HttpError` whose details are absent or the upstream-body
wrapper `{body: …}` — never a stack trace or a credential. -/
theorem Justus.callDeepseek_err_shape (env : Justus.LlmEnv) (parse : String → Option Json)
    (f : Justus.FetchOutcome) (req : Justus.NormalizedRequest) (t : String)
    (th : Justus.Thrown) :
    Justus.callDeepseek env parse f req t = .error th →
    (∃ n m s, th = .js n m s ∧ f = .thrown n m s) ∨
    (∃ e, th = .http e ∧
      (e.details = none ∨ ∃ b, e.details = some (.obj [("body", b)]))) := by
  intro h
  simp only [Justus.callDeepseek] at h
  repeat' split at h
  all_goals first
    | exact Except.noConfusion h
    | (simp only [Except.error.injEq] at h; subst h;
       first
         | exact Or.inl ⟨_, _, _, rfl, rfl⟩
         | (refine Or.inr ⟨_, rfl, ?_⟩;
            first
              | exact Or.inr ⟨_, rfl⟩
              | exact Or.inl (Justus.getDeepseekConfig_err_details env _ (by assumption))
              | exact Or.inl (Justus.normalize_err_details _ _ _ _ _ (by assumption))
              | exact Or.inl rfl))

/-- Same shape property for the OpenAI adapter. -/
theorem Justus.callOpenAi_err_shape (env : Justus.LlmEnv) (parse : String → Option Json)
    (f : Justus.FetchOutcome) (req : Justus.NormalizedRequest) (t : String)
    (th : Justus.Thrown) :
    Justus.callOpenAi env parse f req t = .error th →
    (∃ n m s, th = .js n m s ∧ f = .thrown n m s) ∨
    (∃ e, th = .http e ∧
      (e.details = none ∨ ∃ b, e.details = some (.obj [("body", b)]))) := by
  intro h
  simp only [Justus.callOpenAi] at h
  repeat' split at h
  all_goals first
    | exact Except.noConfusion h
    | (simp only [Except.error.injEq] at h; subst h;
       first
         | exact Or.inl ⟨_, _, _, rfl, rfl⟩
         | (refine Or.inr ⟨_, rfl, ?_⟩;
            first
              | exact Or.inr ⟨_, rfl⟩
              | exact Or.inl (Justus.getOpenAiConfig_err_details env _ (by assumption))
              | exact Or.inl (Justus.normalize_err_details _ _ _ _ _ (by assumption))
              | exact Or.inl rfl))

/-- Any envelope produced by the outer catch has a populated errors list and
the supplied trace id. -/
theorem Justus.fot_envelope (th : Justus.Thrown) (t : String) (f : Justus.FailureBody) :
    (Justus.failureOfThrown th t).body = .failure f → f.errors ≠ [] ∧ f.trace_id = t := by
  cases th with
  | http e =>
    intro h
    simp only [Justus.failureOfThrown, Justus.RouteBody.failure.injEq] at h
    subst h
    exact ⟨by simp, rfl⟩
  | js n m s =>
    intro h
    simp only [Justus.failureOfThrown, Justus.RouteBody.failure.injEq] at h
    subst h
    exact ⟨by simp, rfl⟩

/-- Environment and forced payload used by the C8 counterexample. -/
def c8Env : Justus.LlmEnv :=
  { DEEPSEEK_API_KEY := some "k", DEEPSEEK_URL := some "u", OPENAI_KIA_API_KEY := some "k2" }

def c8Payload : Justus.RouterPayload :=
  { provider := some (.str "deepseek"), input := some (.str "hi") }

/-- C8 counterexample: when `fetch` rejects with a foreign `TypeError`, the
generic 500 handler places the exception's STACK into the envelope's
`details` field — the claim's "details never contains internal stack
traces" is false on this path. -/
theorem C8_stack_details_counterexample :
    Justus.route c8Env (fun _ => none)
        (.thrown (some "TypeError") (some "fetch failed") (some "TypeError: fetch failed"))
        .abort c8Payload "t" =
      (⟨500, .failure ⟨["Internal server error", "fetch failed"], "t",
         some (.obj [("name", .str "TypeError"),
                     ("stack", .str "TypeError: fetch failed")])⟩⟩,
       [.deepseek]) ∧
    lookupField [("name", Json.str "TypeError"), ("stack", .str "TypeError: fetch failed")]
      "stack" = some (.str "TypeError: fetch failed") :=
  ⟨rfl, rfl⟩

/-- C8 (corrected): every failing route call returns an envelope with a
populated `errors` array and the supplied trace id; the credential values
never influence (hence never appear in) the response; and for every run in
which the fetches settle — i.e. no foreign exception is thrown — `details`
is absent or the upstream-body wrapper, with no stack trace.  The generic
500 handler for foreign exceptions, however, does place the exception's
stack in `details` (see the counterexample). -/
theorem C8_envelope :
    (∀ (env : Justus.LlmEnv) (parse : String → Option Json) (fD fO : Justus.FetchOutcome)
        (p : Justus.RouterPayload) (t : String) (f : Justus.FailureBody),
        (Justus.route env parse fD fO p t).1.body = .failure f →
        f.errors ≠ [] ∧ f.trace_id = t) ∧
    (∀ (k₁ k₂ u o₁ o₂ : String) (dm om : Option String) (parse : String → Option Json)
        (fD fO : Justus.FetchOutcome) (p : Justus.RouterPayload) (t : String),
        k₁ ≠ "" → k₂ ≠ "" → o₁ ≠ "" → o₂ ≠ "" → u ≠ "" →
        Justus.route ⟨some k₁, some u, dm, some o₁, om⟩ parse fD fO p t =
          Justus.route ⟨some k₂, some u, dm, some o₂, om⟩ parse fD fO p t) ∧
    (∀ (env : Justus.LlmEnv) (parse : String → Option Json) (fD fO : Justus.FetchOutcome)
        (p : Justus.RouterPayload) (t : String) (f : Justus.FailureBody),
        Justus.FetchOutcome.settled fD = true → Justus.FetchOutcome.settled fO = true →
        (Justus.route env parse fD fO p t).1.body = .failure f →
        f.details = none ∨ ∃ b, f.details = some (.obj [("body", b)])) := by
  refine ⟨?_, ?_, ?_⟩
  · intro env parse fD fO p t f h
    unfold Justus.route at h
    repeat' split at h
    all_goals first
      | exact Justus.RouteBody.noConfusion h
      | exact Justus.fot_envelope _ _ _ h
      | (simp only [Justus.RouteBody.failure.injEq] at h; subst h; exact ⟨by simp, rfl⟩)
  · intro k₁ k₂ u o₁ o₂ dm om parse fD fO p t hk1 hk2 ho1 ho2 hu
    have hD : ∀ req, Justus.callDeepseek ⟨some k₁, some u, dm, some o₁, om⟩ parse fD req t
        = Justus.callDeepseek ⟨some k₂, some u, dm, some o₂, om⟩ parse fD req t := by
      intro req
      simp [Justus.callDeepseek, Justus.getDeepseekConfig, envStr, hk1, hk2, hu]
    have hO : ∀ req, Justus.callOpenAi ⟨some k₁, some u, dm, some o₁, om⟩ parse fO req t
        = Justus.callOpenAi ⟨some k₂, some u, dm, some o₂, om⟩ parse fO req t := by
      intro req
      simp [Justus.callOpenAi, Justus.getOpenAiConfig, envStr, ho1, ho2]
    simp only [Justus.route, hD, hO]
  · intro env parse fD fO p t f hD hO h
    unfold Justus.route at h
    repeat' split at h
    all_goals first
      | exact Justus.RouteBody.noConfusion h
      | (rename_i e heq
         simp only [Justus.RouteBody.failure.injEq] at h
         subst h
         exact Or.inl (Justus.validate_err_details _ _ heq))
      | (rename_i th heq
         rcases Justus.callDeepseek_err_shape _ _ _ _ _ _ heq with
           ⟨n, m, s, hth, hf⟩ | ⟨e, hth, hdet⟩
         · subst hf; simp [Justus.FetchOutcome.settled] at hD
         · subst hth
           simp only [Justus.failureOfThrown, Justus.RouteBody.failure.injEq] at h
           subst h
           exact hdet)
      | (rename_i th heq
         rcases Justus.callOpenAi_err_shape _ _ _ _ _ _ heq with
           ⟨n, m, s, hth, hf⟩ | ⟨e, hth, hdet⟩
         · subst hf; simp [Justus.FetchOutcome.settled] at hO
         · subst hth
           simp only [Justus.failureOfThrown, Justus.RouteBody.failure.injEq] at h
           subst h
           exact hdet)

/-- C8 witness: the populated-envelope conjunct at a concrete validation
failure. -/
theorem C8_envelope_witness :
    (Justus.route {} (fun _ => none) .abort .abort {} "t").1.body =
      .failure ⟨["input is required and must be a string"], "t", none⟩ ∧
    (["input is required and must be a string"] ≠ ([] : List String) ∧ "t" = "t") :=
  ⟨rfl, C8_envelope.1 {} (fun _ => none) .abort .abort {} "t"
     ⟨["input is required and must be a string"], "t", none⟩ rfl⟩

/-! ## C10 — canonical translation JSON invariant -/

theorem lookup_append_missing (fs : List (String × Json)) (k : String) (v : Json) :
    lookupField fs k = none → lookupField (fs ++ [(k, v)]) k = some v := by
  induction fs with
  | nil => intro _; simp [lookupField]
  | cons kv rest ih =>
    obtain ⟨k₁, v₁⟩ := kv
    intro h
    by_cases hk : k₁ = k
    · simp [lookupField, hk] at h
    · simp only [List.cons_append, lookupField, hk, if_false]
      simp only [lookupField, hk, if_false] at h
      exact ih h

theorem lookup_append_pres (fs : List (String × Json)) (l : List (String × Json))
    (k : String) (x : Json) :
    lookupField fs k = some x → lookupField (fs ++ l) k = some x := by
  induction fs with
  | nil => intro h; simp [lookupField] at h
  | cons kv rest ih =>
    obtain ⟨k₁, v₁⟩ := kv
    intro h
    by_cases hk : k₁ = k
    · simp only [lookupField, hk, if_true] at h ⊢
      simpa using h
    · simp only [lookupField, hk, if_false] at h ⊢
      exact ih h

theorem lookup_setField_self (fs : List (String × Json)) (k : String) (v : Json) :
    lookupField (Kiaspora.setField fs k v) k = some v := by
  induction fs with
  | nil => simp [Kiaspora.setField, lookupField]
  | cons kv rest ih =>
    obtain ⟨k₁, v₁⟩ := kv
    by_cases hk : k₁ = k
    · simp [Kiaspora.setField, hk, lookupField]
    · simp [Kiaspora.setField, hk, lookupField, ih]

theorem lookup_setField_other (fs : List (String × Json)) (k k₂ : String) (v : Json)
    (h : k₂ ≠ k) : lookupField (Kiaspora.setField fs k v) k₂ = lookupField fs k₂ := by
  induction fs with
  | nil => simp [Kiaspora.setField, lookupField, Ne.symm h]
  | cons kv rest ih =>
    obtain ⟨k₁, v₁⟩ := kv
    by_cases hk : k₁ = k
    · subst hk
      simp [Kiaspora.setField, lookupField, Ne.symm h]
    · simp [Kiaspora.setField, hk, lookupField, ih]

theorem lookup_append_single_other (fs : List (String × Json)) (k k₂ : String) (v : Json)
    (h : k₂ ≠ k) : lookupField (fs ++ [(k, v)]) k₂ = lookupField fs k₂ := by
  induction fs with
  | nil => simp [lookupField, Ne.symm h]
  | cons kv rest ih =>
    obtain ⟨k₁, v₁⟩ := kv
    by_cases hk : k₁ = k₂
    · simp [lookupField, hk]
    · simp [lookupField, hk, ih]

/-- A key forced by `ensureField` is present afterwards. -/
theorem ensure_self (fs : List (String × Json)) (k : String) (v : Json) :
    lookupField (Kiaspora.ensureField fs k v) k ≠ none := by
  unfold Kiaspora.ensureField
  split
  · rw [lookup_append_missing fs k v (by assumption)]; simp
  · rw [lookup_setField_self]; simp
  · intro hc; simp_all

/-- `ensureField` preserves the presence of every key. -/
theorem ensure_pres (fs : List (String × Json)) (k k₂ : String) (v : Json) :
    lookupField fs k₂ ≠ none → lookupField (Kiaspora.ensureField fs k v) k₂ ≠ none := by
  intro h
  unfold Kiaspora.ensureField
  split
  · rcases hx : lookupField fs k₂ with _ | x
    · exact absurd hx h
    · rw [lookup_append_pres fs _ k₂ x hx]; simp
  · by_cases hk : k₂ = k
    · subst hk; rw [lookup_setField_self]; simp
    · rw [lookup_setField_other fs k k₂ v hk]; exact h
  · exact h

/-- `ensureField` leaves every other key's value unchanged. -/
theorem ensure_other (fs : List (String × Json)) (k k₂ : String) (v : Json) (h : k₂ ≠ k) :
    lookupField (Kiaspora.ensureField fs k v) k₂ = lookupField fs k₂ := by
  unfold Kiaspora.ensureField
  split
  · exact lookup_append_single_other fs k k₂ v h
  · exact lookup_setField_other fs k k₂ v h
  · rfl

/-- The canonical translation object always is an object carrying the three
required keys. -/
theorem Kiaspora.canonical_keys (parse : String → Option Json) (raw src : String) :
    ∃ fs, Kiaspora.toCanonicalTranslationObj parse raw src = .obj fs ∧
      lookupField fs "sourceText" ≠ none ∧
      lookupField fs "translatedText" ≠ none ∧
      lookupField fs "sourcePronunciation" ≠ none := by
  simp only [Kiaspora.toCanonicalTranslationObj]
  rcases hp : parse (Kiaspora.stripFences raw) with _ | j
  · exact ⟨_, rfl, by simp [Kiaspora.translationWrapper, lookupField],
      by simp [Kiaspora.translationWrapper, lookupField],
      by simp [Kiaspora.translationWrapper, lookupField]⟩
  · by_cases hj : (j.truthy && j.typeofObject) = true
    · simp only [hj, if_true]
      refine ⟨_, rfl, ?_, ?_, ?_⟩
      · exact ensure_pres _ _ _ _ (ensure_pres _ _ _ _ (ensure_self _ _ _))
      · exact ensure_pres _ _ _ _ (ensure_self _ _ _)
      · exact ensure_self _ _ _
    · simp only [hj, if_false]
      exact ⟨_, rfl, by simp [Kiaspora.translationWrapper, lookupField],
        by simp [Kiaspora.translationWrapper, lookupField],
        by simp [Kiaspora.translationWrapper, lookupField]⟩

/-- Every successful adapter result's translation is the canonical string of
the (oracle-parsed) model content over the payload's source text. -/
theorem Kiaspora.callTail_ok_translation (parse : String → Option Json)
    (f : Kiaspora.TFetchOutcome) (payload : Kiaspora.TransPayload) (pr : Kiaspora.TProvider)
    (lbl code model : String) (r : Kiaspora.ProviderResult200) :
    Kiaspora.callTail parse f payload pr lbl code model = .ok r →
    ∃ raw, r.translation =
      Kiaspora.toCanonicalTranslationJsonString parse raw payload.sourceText := by
  intro h
  simp only [Kiaspora.callTail] at h
  repeat' split at h
  all_goals first
    | exact Except.noConfusion h
    | (simp only [Except.ok.injEq] at h; subst h; exact ⟨_, rfl⟩)

theorem Kiaspora.callDeepSeek_ok_translation (env : Kiaspora.TransEnv)
    (parse : String → Option Json) (f : Kiaspora.TFetchOutcome)
    (payload : Kiaspora.TransPayload) (t : String) (r : Kiaspora.ProviderResult200) :
    Kiaspora.callDeepSeek env parse f payload t = .ok r →
    ∃ raw, r.translation =
      Kiaspora.toCanonicalTranslationJsonString parse raw payload.sourceText := by
  intro h
  simp only [Kiaspora.callDeepSeek] at h
  split at h
  · exact Except.noConfusion h
  · exact Kiaspora.callTail_ok_translation _ _ _ _ _ _ _ _ h

theorem Kiaspora.callGroq_ok_translation (env : Kiaspora.TransEnv)
    (parse : String → Option Json) (f : Kiaspora.TFetchOutcome)
    (payload : Kiaspora.TransPayload) (t : String) (r : Kiaspora.ProviderResult200) :
    Kiaspora.callGroq env parse f payload t = .ok r →
    ∃ raw, r.translation =
      Kiaspora.toCanonicalTranslationJsonString parse raw payload.sourceText := by
  intro h
  simp only [Kiaspora.callGroq] at h
  split at h
  · exact Except.noConfusion h
  · exact Kiaspora.callTail_ok_translation _ _ _ _ _ _ _ _ h

theorem Kiaspora.callOpenAI_ok_translation (env : Kiaspora.TransEnv)
    (parse : String → Option Json) (f : Kiaspora.TFetchOutcome)
    (payload : Kiaspora.TransPayload) (t : String) (r : Kiaspora.ProviderResult200) :
    Kiaspora.callOpenAI env parse f payload t = .ok r →
    ∃ raw, r.translation =
      Kiaspora.toCanonicalTranslationJsonString parse raw payload.sourceText := by
  intro h
  simp only [Kiaspora.callOpenAI] at h
  split at h
  · exact Except.noConfusion h
  · exact Kiaspora.callTail_ok_translation _ _ _ _ _ _ _ _ h

/-- Every success of `handle`, forced or fallback, carries a translation
that serializes an object with the three required keys. -/
theorem Kiaspora.handle_ok_translation :
    ∀ (env : Kiaspora.TransEnv) (parse : String → Option Json)
      (fD fG fO : Kiaspora.TFetchOutcome) (body : Json) (t : String)
      (r : Kiaspora.ProviderResult200) (calls : List Kiaspora.TProvider),
      Kiaspora.handle env parse fD fG fO body t = (.ok r, calls) →
      ∃ fs, r.translation = Json.stringify (.obj fs) ∧
        lookupField fs "sourceText" ≠ none ∧
        lookupField fs "translatedText" ≠ none ∧
        lookupField fs "sourcePronunciation" ≠ none := by
  intro env parse fD fG fO body t r calls h
  unfold Kiaspora.handle at h
  have finish : ∀ (payload : Kiaspora.TransPayload) (raw : String),
      r.translation = Kiaspora.toCanonicalTranslationJsonString parse raw payload.sourceText →
      ∃ fs, r.translation = Json.stringify (.obj fs) ∧
        lookupField fs "sourceText" ≠ none ∧
        lookupField fs "translatedText" ≠ none ∧
        lookupField fs "sourcePronunciation" ≠ none := by
    intro payload raw hr
    obtain ⟨fs, hfs, hk1, hk2, hk3⟩ := Kiaspora.canonical_keys parse raw payload.sourceText
    exact ⟨fs, by rw [hr, Kiaspora.toCanonicalTranslationJsonString, hfs], hk1, hk2, hk3⟩
  rcases hv : Kiaspora.validate body with e | v <;> simp only [hv] at h
  · simp [Prod.mk.injEq] at h
  · rcases hvp : v.provider with _ | p <;> simp only [hvp] at h
    · rcases hc1 : Kiaspora.callDeepSeek env parse fD (Kiaspora.payloadOf v) t with e₁ | r₁ <;>
        simp only [hc1] at h
      · rcases hc2 : Kiaspora.callGroq env parse fG (Kiaspora.payloadOf v) t with e₂ | r₂ <;>
          simp only [hc2] at h
        · rcases hc3 : Kiaspora.callOpenAI env parse fO (Kiaspora.payloadOf v) t with e₃ | r₃ <;>
            simp only [hc3] at h
          · simp [Prod.mk.injEq] at h
          · simp only [Prod.mk.injEq, Except.ok.injEq] at h
            obtain ⟨h1, _⟩ := h
            subst h1
            obtain ⟨raw, hr⟩ := Kiaspora.callOpenAI_ok_translation _ _ _ _ _ _ hc3
            exact finish _ raw hr
        · simp only [Prod.mk.injEq, Except.ok.injEq] at h
          obtain ⟨h1, _⟩ := h
          subst h1
          obtain ⟨raw, hr⟩ := Kiaspora.callGroq_ok_translation _ _ _ _ _ _ hc2
          exact finish _ raw hr
      · simp only [Prod.mk.injEq, Except.ok.injEq] at h
        obtain ⟨h1, _⟩ := h
        subst h1
        obtain ⟨raw, hr⟩ := Kiaspora.callDeepSeek_ok_translation _ _ _ _ _ _ hc1
        exact finish _ raw hr
    · cases p
      · rcases hc : Kiaspora.callDeepSeek env parse fD (Kiaspora.payloadOf v) t with e₁ | r₁ <;>
          simp only [hc] at h
        · simp [Prod.mk.injEq] at h
        · simp only [Prod.mk.injEq, Except.ok.injEq] at h
          obtain ⟨h1, _⟩ := h
          subst h1
          obtain ⟨raw, hr⟩ := Kiaspora.callDeepSeek_ok_translation _ _ _ _ _ _ hc
          exact finish _ raw hr
      · rcases hc : Kiaspora.callGroq env parse fG (Kiaspora.payloadOf v) t with e₁ | r₁ <;>
          simp only [hc] at h
        · simp [Prod.mk.injEq] at h
        · simp only [Prod.mk.injEq, Except.ok.injEq] at h
          obtain ⟨h1, _⟩ := h
          subst h1
          obtain ⟨raw, hr⟩ := Kiaspora.callGroq_ok_translation _ _ _ _ _ _ hc
          exact finish _ raw hr
      · rcases hc : Kiaspora.callOpenAI env parse fO (Kiaspora.payloadOf v) t with e₁ | r₁ <;>
          simp only [hc] at h
        · simp [Prod.mk.injEq] at h
        · simp only [Prod.mk.injEq, Except.ok.injEq] at h
          obtain ⟨h1, _⟩ := h
          subst h1
          obtain ⟨raw, hr⟩ := Kiaspora.callOpenAI_ok_translation _ _ _ _ _ _ hc
          exact finish _ raw hr

/-- C10: every successful translation-router result's `translation` field is
the serialization of a JSON object carrying the keys `sourceText`,
`translatedText` and `sourcePronunciation`; non-JSON (post-fence-stripping)
model output is wrapped as the `translatedText` of a fresh object; and a
parseable object missing `sourceText` has it filled with the request's
source text. -/
theorem C10_canonical_translation :
    (∀ (env : Kiaspora.TransEnv) (parse : String → Option Json)
        (fD fG fO : Kiaspora.TFetchOutcome) (body : Json) (t : String)
        (r : Kiaspora.ProviderResult200) (calls : List Kiaspora.TProvider),
        Kiaspora.handle env parse fD fG fO body t = (.ok r, calls) →
        ∃ fs, r.translation = Json.stringify (.obj fs) ∧
          lookupField fs "sourceText" ≠ none ∧
          lookupField fs "translatedText" ≠ none ∧
          lookupField fs "sourcePronunciation" ≠ none) ∧
    (∀ (parse : String → Option Json) (raw src : String),
        parse (Kiaspora.stripFences raw) = none →
        Kiaspora.toCanonicalTranslationObj parse raw src =
          Kiaspora.translationWrapper (Kiaspora.stripFences raw) src) ∧
    (∀ (parse : String → Option Json) (raw src : String) (fs : List (String × Json)),
        parse (Kiaspora.stripFences raw) = some (.obj fs) →
        lookupField fs "sourceText" = none →
        Json.getField (Kiaspora.toCanonicalTranslationObj parse raw src) "sourceText" =
          some (.str src)) := by
  refine ⟨Kiaspora.handle_ok_translation, ?_, ?_⟩
  · intro parse raw src hp
    simp only [Kiaspora.toCanonicalTranslationObj, hp]
  · intro parse raw src fs hp hnone
    simp only [Kiaspora.toCanonicalTranslationObj, hp]
    simp only [Json.truthy, Json.typeofObject, Bool.and_true]
    simp only [Kiaspora.jsSpreadFields]
    have h1 : lookupField (Kiaspora.ensureField fs "sourceText" (.str src)) "sourceText" =
        some (.str src) := by
      unfold Kiaspora.ensureField
      rw [hnone]
      exact lookup_append_missing fs _ _ hnone
    simp only [if_true, Json.getField]
    rw [ensure_other _ "sourcePronunciation" "sourceText" _ (by decide),
        ensure_other _ "translatedText" "sourceText" _ (by decide), h1]

/-- Concrete run for the C10 witness: DeepSeek succeeds with a
chat-completion body whose content is plain (non-JSON) text "ciao". -/
def c10Parse : String → Option Json := fun s =>
  if s = "body" then
    some (.obj [("choices", .arr [.obj [("message", .obj [("content", .str "ciao")])]])])
  else none

def c10Env : Kiaspora.TransEnv := { DEEPSEEK_API_KEY := some "k" }

def c10Body : Json := .obj [("sourceText", .str "hello"), ("targetLang", .str "it")]

def c10R : Kiaspora.ProviderResult200 :=
  ⟨Json.stringify (Kiaspora.translationWrapper "ciao" "hello"), "auto", .deepseek, 7,
   Kiaspora.transMeta "deepseek-chat"
     (.obj [("choices", .arr [.obj [("message", .obj [("content", .str "ciao")])]])])⟩

/-- C10 witness: the invariant applied to a concrete successful run. -/
theorem C10_canonical_translation_witness :
    Kiaspora.handle c10Env c10Parse (.resp true 200 "OK" "body" 7) (.thrown "x")
      (.thrown "y") c10Body "t" = (.ok c10R, [.deepseek]) ∧
    ∃ fs, c10R.translation = Json.stringify (.obj fs) ∧
      lookupField fs "sourceText" ≠ none ∧
      lookupField fs "translatedText" ≠ none ∧
      lookupField fs "sourcePronunciation" ≠ none :=
  ⟨rfl,
   C10_canonical_translation.1 c10Env c10Parse (.resp true 200 "OK" "body" 7) (.thrown "x")
     (.thrown "y") c10Body "t" c10R [.deepseek] rfl⟩
